import Mathlib

/-!
Shallow embedding of the chapter / outline management backend of the
MuMuAINovel repository (`backend/app/api/chapters.py`,
`backend/app/api/outlines.py`, `backend/app/services/prompt_service.py`).

Database tables are modelled as Lean lists of row structures; a SQLAlchemy
`SELECT ... WHERE` is list filtering, `ORDER BY` is a stable sort, and
`scalar_one_or_none` on a unique key is `List.find?`.  Python strings are
Lean `String`s; `len` counts code points, and slicing `s[:n]` takes the
first `n` code points, exactly as in CPython.  Nullable text columns are
`Option String` and Python truthiness (`None` and `""` falsy) is made
explicit.  The `Project` and `Character` ORM row shapes are not shipped in
the backend sources; their fields are reproduced from the Pydantic
response schemas (`schemas/project.py`) and from every use site in
`api/chapters.py`.
-/

namespace MuMu

/-- Python `len(s)` for a `str`: the number of code points. -/
def pyLen (s : String) : Nat := s.data.length

/-- Python slicing `s[:n]` for a `str`: the first `n` code points. -/
def pyTake (s : String) (n : Nat) : String := ⟨s.data.take n⟩

/-- Python truthiness of a nullable string column (`None` and `""` are falsy). -/
def pyTruthy : Option String → Bool
  | none => false
  | some s => s ≠ ""

/-- Python `v or default` for a nullable string (used for fallback placeholders). -/
def pyOrStr (v : Option String) (default : String) : String :=
  if pyTruthy v then v.getD "" else default

/-- Python `s.strip() == ""`: true iff every code point of `s` is whitespace
(in particular true for the empty string). -/
def pyStripEmpty (s : String) : Bool := s.data.all Char.isWhitespace

/-- Row of the `chapters` table (`models/chapter.py`).  `word_count` has a
non-null default of `0`, so it is a plain `Nat` (Python's defensive
`chapter.word_count or 0` is then the identity, since `0 or 0 == 0`). -/
structure Chapter where
  id : String
  project_id : String
  chapter_number : Nat
  title : String
  content : Option String
  summary : Option String
  word_count : Nat
  status : String
  deriving DecidableEq, Repr

/-- Row of the `projects` table.  The ORM module is not shipped; fields are
those read by `api/chapters.py` with nullability taken from
`ProjectResponse` in `schemas/project.py` (`current_words : int` non-null,
world-building and perspective fields optional). -/
structure Project where
  id : String
  title : String
  theme : Option String
  genre : Option String
  narrative_perspective : Option String
  world_time_period : Option String
  world_location : Option String
  world_atmosphere : Option String
  world_rules : Option String
  current_words : Int
  deriving DecidableEq, Repr

/-- Row of the `outlines` table (`models/outline.py`).  `content` is a text
column that every writer in the API populates with a string, and all readers
slice it unconditionally, so it is modelled as `String`.  The serialized
`structure` column is never read by the code under verification and is
omitted. -/
structure Outline where
  id : String
  project_id : String
  title : String
  content : String
  order_index : Nat
  deriving DecidableEq, Repr

/-- Row of the `characters` table; the ORM module is not shipped, fields are
exactly those read when building the character roster in `api/chapters.py`. -/
structure Character where
  id : String
  project_id : String
  name : String
  is_organization : Bool
  role_type : String
  personality : Option String
  deriving DecidableEq, Repr

/-- Row of the `generation_history` table (`models/generation_history.py`),
restricted to the columns the generation endpoints write. -/
structure GenerationHistory where
  project_id : String
  chapter_id : Option String
  prompt : String
  generated_content : String
  model : String
  deriving DecidableEq, Repr

/-- The relational store accessed by the endpoints. -/
structure Db where
  projects : List Project
  chapters : List Chapter
  outlines : List Outline
  characters : List Character
  history : List GenerationHistory
  deriving DecidableEq, Repr

/-- The `SELECT ... WHERE project_id = .. AND chapter_number < .. ORDER BY
chapter_number` query in `check_prerequisites`: filter the table and sort
(stably) by `chapter_number`. -/
def previousChaptersQuery (db : Db) (chapter : Chapter) : List Chapter :=
  (db.chapters.filter
      (fun c => c.project_id == chapter.project_id &&
                c.chapter_number < chapter.chapter_number)).insertionSort
    (fun a b => a.chapter_number ≤ b.chapter_number)

/-- Python `not ch.content or ch.content.strip() == ""`: the predicate
selecting incomplete prerequisite chapters. -/
def chapterBlocked (ch : Chapter) : Bool :=
  !pyTruthy ch.content || pyStripEmpty (ch.content.getD "")

/-- The blocking chapter numbers rendered as in the source
(`[str(ch.chapter_number) for ch in incomplete_chapters]`). -/
def missingNumbers (previous : List Chapter) : List String :=
  (previous.filter chapterBlocked).map (fun ch => toString ch.chapter_number)

/-- The ineligibility message template of `check_prerequisites`. -/
def prerequisiteError (numbers : List String) : String :=
  "需要先完成前置章节：第 " ++ String.intercalate ", " numbers ++ " 章"

/-- Translation of `check_prerequisites` (`api/chapters.py` lines 170-205):
chapter number 1 is always eligible; otherwise all chapters of the project
with a smaller number are fetched in order, and eligibility requires each to
have non-empty, non-whitespace content.  Returns (eligible, message,
prerequisite rows). -/
def check_prerequisites (db : Db) (chapter : Chapter) :
    Bool × String × List Chapter :=
  if chapter.chapter_number == 1 then
    (true, "", [])
  else
    let previous_chapters := previousChaptersQuery db chapter
    let incomplete_chapters := previous_chapters.filter chapterBlocked
    if incomplete_chapters.isEmpty then
      (true, "", previous_chapters)
    else
      (false, prerequisiteError (missingNumbers previous_chapters),
       previous_chapters)

/-- A chapter row is individually satisfactory for the prerequisite check
iff its content is present, non-empty and not whitespace-only. -/
theorem chapterBlocked_eq_false (c : Chapter) :
    chapterBlocked c = false ↔
      (pyTruthy c.content = true ∧ pyStripEmpty (c.content.getD "") = false) := by
  simp [chapterBlocked]

/-- Membership in the prerequisite query result is membership in the raw
table subject to the WHERE clause. -/
theorem mem_previousChaptersQuery (db : Db) (chapter c : Chapter) :
    c ∈ previousChaptersQuery db chapter ↔
      c ∈ db.chapters ∧ c.project_id = chapter.project_id ∧
        c.chapter_number < chapter.chapter_number := by
  unfold previousChaptersQuery
  rw [(List.perm_insertionSort _ _).mem_iff, List.mem_filter]
  simp [and_assoc]

/-- C1: a chapter at position 1 is always eligible; for a position above 1
the check succeeds iff every chapter row of the same project at a lower
position has non-empty, non-whitespace content; and on failure the result
carries the message naming exactly the blocking positions together with the
ordered prerequisite rows. -/
theorem c1_prerequisite_check (db : Db) (chapter : Chapter) :
    (chapter.chapter_number = 1 → check_prerequisites db chapter = (true, "", []))
    ∧ (1 < chapter.chapter_number →
        (((check_prerequisites db chapter).1 = true) ↔
          ∀ c ∈ db.chapters, c.project_id = chapter.project_id →
            c.chapter_number < chapter.chapter_number →
            (pyTruthy c.content = true ∧ pyStripEmpty (c.content.getD "") = false))
        ∧ ((check_prerequisites db chapter).1 = false →
            check_prerequisites db chapter =
              (false,
               prerequisiteError
                 (missingNumbers (previousChaptersQuery db chapter)),
               previousChaptersQuery db chapter))) := by
  constructor
  · intro h1
    simp [check_prerequisites, h1]
  · intro hgt
    have hne : (chapter.chapter_number == 1) = false := by
      simp only [beq_eq_false_iff_ne, ne_eq]
      omega
    have hres :
        check_prerequisites db chapter =
          if ((previousChaptersQuery db chapter).filter chapterBlocked).isEmpty
          then (true, "", previousChaptersQuery db chapter)
          else (false,
                prerequisiteError
                  (missingNumbers (previousChaptersQuery db chapter)),
                previousChaptersQuery db chapter) := by
      simp [check_prerequisites, hne]
    constructor
    · rw [hres]
      by_cases hemp :
          ((previousChaptersQuery db chapter).filter chapterBlocked).isEmpty
      · simp only [hemp, if_true]
        constructor
        · intro _ c hc hpid hlt
          have hmem : c ∈ previousChaptersQuery db chapter :=
            (mem_previousChaptersQuery db chapter c).2 ⟨hc, hpid, hlt⟩
          have := (List.filter_eq_nil_iff.1 (List.isEmpty_iff.1 hemp)) c hmem
          rw [← chapterBlocked_eq_false]
          simpa using this
        · intro _; trivial
      · simp only [hemp, if_false]
        constructor
        · intro h; exact absurd h (by simp)
        · intro hall
          exfalso
          apply hemp
          rw [List.isEmpty_iff, List.filter_eq_nil_iff]
          intro c hmem
          have hc := (mem_previousChaptersQuery db chapter c).1 hmem
          have := hall c hc.1 hc.2.1 hc.2.2
          simp [(chapterBlocked_eq_false c).2 this]
    · intro hfail
      rw [hres] at hfail ⊢
      by_cases hemp :
          ((previousChaptersQuery db chapter).filter chapterBlocked).isEmpty
      · simp [hemp] at hfail
      · simp [hemp]

/-- Sample project row for concrete witnesses. -/
def sampleProject : Project :=
  { id := "p1", title := "测试小说", theme := some "成长", genre := none,
    narrative_perspective := none, world_time_period := none,
    world_location := none, world_atmosphere := none, world_rules := none,
    current_words := 2 }

/-- Sample completed first chapter. -/
def sampleCh1 : Chapter :=
  { id := "c1", project_id := "p1", chapter_number := 1, title := "第一章",
    content := some "开端", summary := none, word_count := 2,
    status := "completed" }

/-- Sample second chapter with whitespace-only content. -/
def sampleCh2 : Chapter :=
  { id := "c2", project_id := "p1", chapter_number := 2, title := "第二章",
    content := some " ", summary := none, word_count := 0, status := "draft" }

/-- Sample third chapter with no content yet. -/
def sampleCh3 : Chapter :=
  { id := "c3", project_id := "p1", chapter_number := 3, title := "第三章",
    content := none, summary := none, word_count := 0, status := "draft" }

/-- Sample store holding the three chapters above. -/
def sampleDb : Db :=
  { projects := [sampleProject],
    chapters := [sampleCh1, sampleCh2, sampleCh3],
    outlines := [], characters := [], history := [] }

/-- Witness for C1 at the concrete store: position 1 is eligible
unconditionally, and eligibility of position 3 is equivalent to the
completeness of every lower-numbered row of the project. -/
theorem c1_prerequisite_check_witness :
    check_prerequisites sampleDb sampleCh1 = (true, "", []) ∧
    ((check_prerequisites sampleDb sampleCh3).1 = true ↔
      ∀ c ∈ sampleDb.chapters, c.project_id = sampleCh3.project_id →
        c.chapter_number < sampleCh3.chapter_number →
        (pyTruthy c.content = true ∧ pyStripEmpty (c.content.getD "") = false)) :=
  ⟨(c1_prerequisite_check sampleDb sampleCh1).1 rfl,
   ((c1_prerequisite_check sampleDb sampleCh3).2 (by decide)).1⟩

/-- Python `str(x)` for a nullable string as interpolated by an f-string:
`None` renders as `"None"`. -/
def pyStrOpt : Option String → String
  | none => "None"
  | some s => s

/-- Python `s or default` for a plain (non-nullable) string: the default is
used when `s` is empty. -/
def pyOrS (s default : String) : String := if s = "" then default else s

/-- The early-chapter excerpt `ch.content[:200] if ch.content else ''`. -/
def chapterExcerpt (ch : Chapter) : String :=
  if pyTruthy ch.content then pyTake (ch.content.getD "") 200 else ""

/-- The early-chapters digest block (`early_summary`, `api/chapters.py`
lines 321-324): header plus one excerpt line per chapter, prefixed with its
number and title. -/
def earlySummary (early_chapters : List Chapter) : String :=
  "【前期剧情概要】\n" ++ String.intercalate "\n"
    (early_chapters.map (fun ch =>
      "第" ++ toString ch.chapter_number ++ "章《" ++ ch.title ++ "》：" ++
        chapterExcerpt ch ++ "..."))

/-- The recent-chapters block (`recent_content`, lines 329-332): header plus
the full, untruncated content of each chapter under a labelled delimiter. -/
def recentContent (recent_chapters : List Chapter) : String :=
  "【最近章节完整内容】\n" ++ String.intercalate "\n\n"
    (recent_chapters.map (fun ch =>
      "=== 第" ++ toString ch.chapter_number ++ "章：" ++ ch.title ++
        " ===\n" ++ pyStrOpt ch.content))

/-- The previous-content builder (`api/chapters.py` lines 313-333; the
streaming generator repeats the same logic verbatim over captured row data at
lines 512-529).  With more than 3 prerequisite chapters the last 3 are kept
in full and the rest become excerpts; with at most 3 everything is kept in
full and no early block is emitted. -/
def buildPreviousContent (previous_chapters : List Chapter) : String :=
  if previous_chapters.isEmpty then ""
  else
    let recent_chapters :=
      if 3 < previous_chapters.length then
        previous_chapters.drop (previous_chapters.length - 3)
      else previous_chapters
    let early_chapters :=
      if 3 < previous_chapters.length then
        previous_chapters.take (previous_chapters.length - 3)
      else []
    let earlyPart :=
      if early_chapters.isEmpty then "" else earlySummary early_chapters ++ "\n\n"
    let recentPart :=
      if recent_chapters.isEmpty then "" else recentContent recent_chapters
    earlyPart ++ recentPart

/-- The whole-book outline digest (`outlines_context`, lines 297-300). -/
def outlinesContextOf (all_outlines : List Outline) : String :=
  String.intercalate "\n"
    (all_outlines.map (fun o =>
      "第" ++ toString o.order_index ++ "章 " ++ o.title ++ ": " ++
        pyTake o.content 100 ++ "..."))

/-- The character roster (`characters_info`, lines 307-310). -/
def charactersInfoOf (characters : List Character) : String :=
  String.intercalate "\n"
    (characters.map (fun c =>
      "- " ++ c.name ++ "(" ++ (if c.is_organization then "组织" else "角色") ++
        ", " ++ c.role_type ++ "): " ++
        (if pyTruthy c.personality then pyTake (c.personality.getD "") 100 else "")))

/-- Leading text shared verbatim by `PromptTemplates.CHAPTER_GENERATION` and
`PromptTemplates.CHAPTER_GENERATION_WITH_CONTEXT` (through the whole-book
outline digest), with the `str.format` placeholders substituted. -/
def chapterPromptHeader (title theme genre narrative_perspective time_period
    location atmosphere rules characters_info outlines_context : String) :
    String :=
  "你是一位专业的小说作家。请根据以下信息创作本章内容：\n\n项目信息：\n- 书名：" ++ title
  ++ "\n- 主题：" ++ theme
  ++ "\n- 类型：" ++ genre
  ++ "\n- 叙事视角：" ++ narrative_perspective
  ++ "\n\n世界观：\n- 时间背景：" ++ time_period
  ++ "\n- 地理位置：" ++ location
  ++ "\n- 氛围基调：" ++ atmosphere
  ++ "\n- 世界规则：" ++ rules
  ++ "\n\n角色信息：\n" ++ characters_info
  ++ "\n\n全书大纲：\n" ++ outlines_context

/-- Trailing text of `CHAPTER_GENERATION` (the first-chapter template) after
the shared header; it has no previous-content section at all. -/
def chapterPromptTail (narrative_perspective : String) (chapter_number : Nat)
    (chapter_title chapter_outline : String) : String :=
  "\n\n本章信息：\n- 章节序号：第" ++ toString chapter_number
  ++ "章\n- 章节标题：" ++ chapter_title
  ++ "\n- 章节大纲：" ++ chapter_outline
  ++ "\n\n创作要求：\n1. 严格按照大纲内容展开情节\n2. 保持与前后章节的连贯性\n3. 符合角色性格设定\n4. 体现世界观特色\n5. 使用"
  ++ narrative_perspective
  ++ "视角\n6. 字数不得低于3000字\n7. 语言自然流畅，避免AI痕迹\n\n**写作风格要求（重要）：**\n- 让故事自然流淌，写到哪算哪\n- 结尾处直接结束情节，不要加总结性段落\n- 不要在章节末尾写\"这一天/这一夜就这样过去了\"之类的总结句\n- 不要用\"他/她陷入了沉思\"作为结尾\n- 避免刻意的情感升华或哲理感悟收尾\n- 章节结尾可以戛然而止，可以是对话，可以是动作，可以是悬念\n- 就像在讲一个故事，讲完了就停，不需要画龙点睛\n\n请直接输出章节正文内容，不要包含章节标题和其他说明文字。"

/-- Text of `CHAPTER_GENERATION_WITH_CONTEXT` following the previous-content
section: the chapter info block and the continuation-specific writing
requirements. -/
def chapterContextClosing (narrative_perspective : String)
    (chapter_number : Nat) (chapter_title chapter_outline : String) : String :=
  "\n\n本章信息：\n- 章节序号：第" ++ toString chapter_number
  ++ "章\n- 章节标题：" ++ chapter_title
  ++ "\n- 章节大纲：" ++ chapter_outline
  ++ "\n\n创作要求：\n1. **剧情连贯性（最重要）**：\n- 必须承接前面章节的剧情发展\n- 注意角色状态、情节进展、时间线的连续性\n- 不能出现与前文矛盾的内容\n- 自然过渡，避免突兀的跳跃\n\n2. **情节推进**：\n- 严格按照本章大纲展开情节\n- 推动故事向前发展\n- 保持与全书大纲的一致性\n\n3. **角色一致性**：\n- 符合角色性格设定\n- 延续角色在前文中的成长和变化\n- 保持角色关系的连贯性\n\n4. **写作风格**：\n- 使用"
  ++ narrative_perspective
  ++ "视角\n- 字数不得低于3000字\n- 语言自然流畅，避免AI痕迹\n- 体现世界观特色\n\n5. **承上启下**：\n- 开头自然衔接上一章结尾\n- 结尾为下一章做好铺垫\n\n**写作风格要求（重要）：**\n- 让故事自然流淌，写到哪算哪\n- 结尾处直接结束情节，不要加总结性段落\n- 不要在章节末尾写\"这一天/这一夜就这样过去了\"之类的总结句\n- 不要用\"他/她陷入了沉思\"作为结尾\n- 避免刻意的情感升华或哲理感悟收尾\n- 章节结尾可以戛然而止，可以是对话，可以是动作，可以是悬念\n- 就像在讲一个故事，讲完了就停，不需要画龙点睛\n\n请直接输出章节正文内容，不要包含章节标题和其他说明文字。"

/-- Trailing text of `CHAPTER_GENERATION_WITH_CONTEXT` after the shared
header: the previous-content section under the `【已完成的前置章节内容】`
banner followed by `chapterContextClosing`. -/
def chapterPromptContextTail (previous_content narrative_perspective : String)
    (chapter_number : Nat) (chapter_title chapter_outline : String) : String :=
  "\n\n【已完成的前置章节内容】\n" ++ previous_content
  ++ chapterContextClosing narrative_perspective chapter_number chapter_title
      chapter_outline

/-- `prompt_service.get_chapter_generation_prompt`: the first-chapter
template `CHAPTER_GENERATION` with its placeholders substituted.  It takes no
previous-content argument. -/
def get_chapter_generation_prompt (title theme genre narrative_perspective
    time_period location atmosphere rules characters_info outlines_context :
    String) (chapter_number : Nat) (chapter_title chapter_outline : String) :
    String :=
  chapterPromptHeader title theme genre narrative_perspective time_period
      location atmosphere rules characters_info outlines_context
    ++ chapterPromptTail narrative_perspective chapter_number chapter_title
        chapter_outline

/-- `prompt_service.get_chapter_generation_with_context_prompt`: the
continuation template `CHAPTER_GENERATION_WITH_CONTEXT` with its placeholders
substituted. -/
def get_chapter_generation_with_context_prompt (title theme genre
    narrative_perspective time_period location atmosphere rules
    characters_info outlines_context previous_content : String)
    (chapter_number : Nat) (chapter_title chapter_outline : String) : String :=
  chapterPromptHeader title theme genre narrative_perspective time_period
      location atmosphere rules characters_info outlines_context
    ++ chapterPromptContextTail previous_content narrative_perspective
        chapter_number chapter_title chapter_outline

/-- Prompt selection of `generate_chapter_content` (`api/chapters.py` lines
337-372, repeated at 536-569 in the streaming generator): a hard branch on
the truthiness of `previous_content` choosing between the continuation
template and the first-chapter template, with the fallback placeholders of
the source applied to each optional project field. -/
def chapterPrompt (project : Project) (chapter : Chapter)
    (outline : Option Outline) (characters_info outlines_context
    previous_content : String) : String :=
  let chapter_outline :=
    match outline with
    | some o => o.content
    | none => pyOrStr chapter.summary "暂无大纲"
  if previous_content ≠ "" then
    get_chapter_generation_with_context_prompt
      project.title (pyOrStr project.theme "") (pyOrStr project.genre "")
      (pyOrStr project.narrative_perspective "第三人称")
      (pyOrStr project.world_time_period "未设定")
      (pyOrStr project.world_location "未设定")
      (pyOrStr project.world_atmosphere "未设定")
      (pyOrStr project.world_rules "未设定")
      (pyOrS characters_info "暂无角色信息") outlines_context
      previous_content chapter.chapter_number chapter.title chapter_outline
  else
    get_chapter_generation_prompt
      project.title (pyOrStr project.theme "") (pyOrStr project.genre "")
      (pyOrStr project.narrative_perspective "第三人称")
      (pyOrStr project.world_time_period "未设定")
      (pyOrStr project.world_location "未设定")
      (pyOrStr project.world_atmosphere "未设定")
      (pyOrStr project.world_rules "未设定")
      (pyOrS characters_info "暂无角色信息") outlines_context
      chapter.chapter_number chapter.title chapter_outline

/-- Observable side effects of the blocking generation endpoint that matter
for the fail-fast policy: the call to the generation client and the commit. -/
inductive BlockEffect
  | aiCall
  | commitEff
  deriving DecidableEq, Repr

/-- Result of the blocking generation endpoint: HTTP error status (if any),
the returned text, the store after the request, the effect trace, and the
prompt that was built (present only once prompt construction was reached). -/
structure BlockResult where
  status : Option Nat
  detail : String
  response : Option String
  db : Db
  effects : List BlockEffect
  prompt : Option String
  deriving Repr

/-- In-place ORM row update followed by commit: replace the row carrying the
given primary key (primary keys are unique, so at most one row changes). -/
def updateChapterRow (cs : List Chapter) (cid : String) (c' : Chapter) :
    List Chapter :=
  cs.map (fun c => if c.id == cid then c' else c)

/-- In-place ORM row update for a project row. -/
def updateProjectRow (ps : List Project) (pid : String) (p' : Project) :
    List Project :=
  ps.map (fun p => if p.id == pid then p' else p)

/-- The `GenerationHistory` row written on successful generation (lines
392-398): the audit copy of the output is truncated to 500 code points only
when the output is longer than that. -/
def generationHistoryRow (chapter : Chapter) (ai_content : String) :
    GenerationHistory :=
  { project_id := chapter.project_id,
    chapter_id := some chapter.id,
    prompt := "创作章节: 第" ++ toString chapter.chapter_number ++ "章 " ++
      chapter.title,
    generated_content :=
      if 500 < pyLen ai_content then pyTake ai_content 500 else ai_content,
    model := "default" }

/-- Translation of the blocking endpoint `generate_chapter_content`
(`api/chapters.py` lines 248-410).  `ai` is the outcome of the single
generation call (`none` models the client raising).  A missing chapter is a
404 and a failed precondition a 400, both raised before the `try` block; the
404 for a missing project is raised inside the `try` block and therefore
re-surfaces as a 500 through the generic `except Exception` handler.  On
success the chapter content (untruncated), its recomputed word count, the
`completed` status, the project word total, and the history row are all
committed together. -/
def generate_chapter_content (db : Db) (chapter_id : String)
    (ai : Except String String) : BlockResult :=
  match db.chapters.find? (fun c => c.id == chapter_id) with
  | none =>
    { status := some 404, detail := "章节不存在", response := none, db := db,
      effects := [], prompt := none }
  | some chapter =>
    let check := check_prerequisites db chapter
    if !check.1 then
      { status := some 400, detail := check.2.1, response := none, db := db,
        effects := [], prompt := none }
    else
      match db.projects.find? (fun p => p.id == chapter.project_id) with
      | none =>
        { status := some 500, detail := "创作章节失败: 404: 项目不存在",
          response := none, db := db, effects := [], prompt := none }
      | some project =>
        let outline := db.outlines.find? (fun o =>
          o.project_id == chapter.project_id &&
          o.order_index == chapter.chapter_number)
        let all_outlines :=
          (db.outlines.filter (fun o => o.project_id == chapter.project_id)).insertionSort
            (fun a b => a.order_index ≤ b.order_index)
        let outlines_context := outlinesContextOf all_outlines
        let characters :=
          db.characters.filter (fun c => c.project_id == chapter.project_id)
        let characters_info := charactersInfoOf characters
        let previous_content := buildPreviousContent check.2.2
        let prompt := chapterPrompt project chapter outline characters_info
          outlines_context previous_content
        match ai with
        | .error e_msg =>
          { status := some 500, detail := "创作章节失败: " ++ e_msg,
            response := none, db := db,
            effects := [.aiCall], prompt := some prompt }
        | .ok ai_content =>
          let old_word_count := chapter.word_count
          let new_word_count := pyLen ai_content
          let chapter' := { chapter with
            content := some ai_content,
            word_count := new_word_count,
            status := "completed" }
          let project' := { project with
            current_words :=
              project.current_words - old_word_count + new_word_count }
          { status := none, detail := "", response := some ai_content,
            db := { db with
              chapters := updateChapterRow db.chapters chapter.id chapter',
              projects := updateProjectRow db.projects project.id project',
              history := db.history ++ [generationHistoryRow chapter ai_content] },
            effects := [.aiCall, .commitEff], prompt := some prompt }

/-- Request body of `POST /chapters` (`ChapterCreate` in
`schemas/chapter.py`); `status` defaults to `"draft"` at the schema level. -/
structure ChapterCreatePayload where
  project_id : String
  title : String
  chapter_number : Nat
  content : Option String
  summary : Option String
  status : String
  deriving DecidableEq, Repr

/-- Request body of `PUT /chapters/[id]` (`ChapterUpdate`): each field is
either absent from the request (outer `none`, excluded by
`model_dump(exclude_unset=True)`) or explicitly provided; `content` and
`summary` may be explicitly set to null. -/
structure ChapterUpdatePayload where
  title : Option String
  content : Option (Option String)
  summary : Option (Option String)
  status : Option String
  deriving DecidableEq, Repr

/-- The `setattr` loop of `update_chapter` (lines 120-122) applied to the
chapter row: set exactly the fields present in the request. -/
def applyChapterUpdate (payload : ChapterUpdatePayload) (ch : Chapter) :
    Chapter :=
  let ch := match payload.title with
    | some t => { ch with title := t }
    | none => ch
  let ch := match payload.content with
    | some c => { ch with content := c }
    | none => ch
  let ch := match payload.summary with
    | some s => { ch with summary := s }
    | none => ch
  match payload.status with
  | some s => { ch with status := s }
  | none => ch

/-- Translation of `create_chapter` (`api/chapters.py` lines 30-58).  The
fresh UUID is a parameter.  `len(chapter.content)` on a request without
content raises a `TypeError`, surfacing as a 500; otherwise the chapter is
inserted with `word_count = len(content)` and the project word total grows by
the same amount. -/
def create_chapter (db : Db) (new_id : String)
    (payload : ChapterCreatePayload) : Except Nat Db :=
  match db.projects.find? (fun p => p.id == payload.project_id) with
  | none => .error 404
  | some project =>
    match payload.content with
    | none => .error 500
    | some content =>
      let word_count := pyLen content
      let db_chapter : Chapter :=
        { id := new_id, project_id := payload.project_id,
          chapter_number := payload.chapter_number, title := payload.title,
          content := some content, summary := payload.summary,
          word_count := word_count, status := payload.status }
      .ok { db with
        chapters := db.chapters ++ [db_chapter],
        projects := updateProjectRow db.projects project.id
          { project with
            current_words := project.current_words + word_count } }

/-- Translation of `update_chapter` (`api/chapters.py` lines 101-139).  The
word counts are recomputed only when the request sets `content` AND the new
content is truthy; in that case the project total gets the delta
`- old_word_count + new_word_count` (when the project row exists). -/
def update_chapter (db : Db) (chapter_id : String)
    (payload : ChapterUpdatePayload) : Except Nat Db :=
  match db.chapters.find? (fun c => c.id == chapter_id) with
  | none => .error 404
  | some chapter =>
    let old_word_count := chapter.word_count
    let updated := applyChapterUpdate payload chapter
    if payload.content.isSome && pyTruthy updated.content then
      let new_word_count := pyLen (updated.content.getD "")
      let updated := { updated with word_count := new_word_count }
      let db' := { db with
        chapters := updateChapterRow db.chapters chapter_id updated }
      match db.projects.find? (fun p => p.id == chapter.project_id) with
      | some project =>
        .ok { db' with
          projects := updateProjectRow db'.projects project.id
            { project with
              current_words :=
                project.current_words - old_word_count + new_word_count } }
      | none => .ok db'
    else
      .ok { db with
        chapters := updateChapterRow db.chapters chapter_id updated }

/-- Translation of `delete_chapter` (`api/chapters.py` lines 142-167): the
project total is decremented by the chapter word count, clamped at zero, and
the row (addressed by its primary key) is removed. -/
def delete_chapter (db : Db) (chapter_id : String) : Except Nat Db :=
  match db.chapters.find? (fun c => c.id == chapter_id) with
  | none => .error 404
  | some chapter =>
    let db' :=
      match db.projects.find? (fun p => p.id == chapter.project_id) with
      | some project =>
        { db with
          projects := updateProjectRow db.projects project.id
            { project with
              current_words :=
                max 0 (project.current_words - chapter.word_count) } }
      | none => db
    .ok { db' with
      chapters := db'.chapters.filter (fun c => !(c.id == chapter_id)) }

/-- One iteration of the chapter half of the renumbering loop in
`delete_outline` (`api/outlines.py` lines 236-244): look up the chapter of
the project carrying the old position (`scalar_one_or_none`; positions are
unique per project, so the first match is the only match) and, if present,
move it down one position. -/
def renumberChapter (project_id : String) (old_order : Nat) :
    List Chapter → List Chapter
  | [] => []
  | c :: rest =>
    if c.project_id == project_id && c.chapter_number == old_order then
      { c with chapter_number := old_order - 1 } :: rest
    else
      c :: renumberChapter project_id old_order rest

/-- The `for o in subsequent_outlines` loop of `delete_outline` (lines
231-244), iterating over the (id, old position) pairs of the outlines that
followed the deleted one: each outline moves down one position and the
chapter at its old position follows it. -/
def renumberLoop (project_id : String) :
    List (String × Nat) → List Outline → List Chapter →
      List Outline × List Chapter
  | [], os, cs => (os, cs)
  | (oid, old_order) :: rest, os, cs =>
    renumberLoop project_id rest
      (os.map (fun o =>
        if o.id == oid then { o with order_index := old_order - 1 } else o))
      (renumberChapter project_id old_order cs)

/-- Translation of `delete_outline` (`api/outlines.py` lines 194-248): delete
the outline, bulk-delete the chapters of the project at the same position,
then renumber every outline of the project with a higher position (and its
paired chapter) down by one.  The subsequent outlines are visited in storage
order, matching an unordered `SELECT` returning rows in insertion order. -/
def delete_outline (db : Db) (outline_id : String) : Except Nat Db :=
  match db.outlines.find? (fun o => o.id == outline_id) with
  | none => .error 404
  | some outline =>
    let project_id := outline.project_id
    let deleted_order := outline.order_index
    let chapters1 := db.chapters.filter (fun c =>
      !(c.project_id == project_id && c.chapter_number == deleted_order))
    let outlines1 := db.outlines.filter (fun o => !(o.id == outline_id))
    let subsequent_outlines := outlines1.filter (fun o =>
      o.project_id == project_id && deleted_order < o.order_index)
    let result := renumberLoop project_id
      (subsequent_outlines.map (fun o => (o.id, o.order_index)))
      outlines1 chapters1
    .ok { db with outlines := result.1, chapters := result.2 }

/-- Operations performed on the streaming generator's dedicated database
session, in order.  `execOp` is any `SELECT`/`refresh` (each opens a
transaction if none is active, per SQLAlchemy autobegin); `commitFail` is a
commit attempt that raised.  Rollback and close themselves are modelled as
succeeding (their failure handlers only log). -/
inductive SessOp
  | execOp
  | commitOk
  | commitFail
  | rollbackOp
  | closeOp
  deriving DecidableEq, Repr

/-- Server-sent event kinds emitted by the streaming generator. -/
inductive StreamEvent
  | startEv
  | contentEv
  | doneEv
  | errorEv
  deriving DecidableEq, Repr

/-- The termination modes of one run of the streaming generator
`event_generator` (`api/chapters.py` lines 454-648): the row-missing early
returns, an exception among the later reads, a client disconnect
(`GeneratorExit`) before or after the commit, an exception from the token
stream, a failing commit, and natural completion.  `chunks` is the number of
content fragments delivered before the run ended. -/
inductive StreamScenario
  | chapterMissing
  | projectMissing
  | fetchFailure
  | disconnectBeforeCommit (chunks : Nat)
  | streamFailure (chunks : Nat)
  | commitFailure (chunks : Nat)
  | disconnectAtDone (chunks : Nat)
  | complete (chunks : Nat)
  deriving DecidableEq, Repr

/-- Trace of one streaming run: session operations, the final value of the
`db_committed` flag, and the events that reached the client. -/
structure StreamRun where
  ops : List SessOp
  committed : Bool
  events : List StreamEvent
  deriving DecidableEq, Repr

/-- The `content` events for `n` delivered fragments. -/
def contentEvents (n : Nat) : List StreamEvent :=
  List.replicate n .contentEv

/-- Trace semantics of `event_generator` (`api/chapters.py` lines 454-648),
derived case by case from the `try/except GeneratorExit/except
Exception/finally` structure:

* `chapterMissing`: the chapter `SELECT` runs (opening a transaction), a
  single error event is yielded and the generator returns; `finally` sees
  `db_committed` false with an open transaction, rolls back and closes.
* `projectMissing`: same after the second `SELECT`.
* `fetchFailure`: one of the later reads raises; `except Exception` rolls
  back, yields one error event, `finally` closes.
* `disconnectBeforeCommit n`: all five reads succeed, the start event and
  `n` content events are delivered, then `GeneratorExit` arrives at a yield;
  the handler rolls back (flag still false) and emits nothing further;
  `finally` closes.
* `streamFailure n`: as above but the token stream raises: rollback, one
  error event, close.
* `commitFailure n`: the commit itself raises, leaving the flag false and
  the transaction pending; the exception handler rolls back and yields an
  error event; `finally` closes.
* `disconnectAtDone n` / `complete n`: commit succeeds and sets the flag,
  `refresh` issues another `SELECT` (reopening a transaction), the done
  event is delivered; both handlers skip rollback because the flag is set,
  and `finally` closes. -/
def event_generator : StreamScenario → StreamRun
  | .chapterMissing =>
    { ops := [.execOp, .rollbackOp, .closeOp], committed := false,
      events := [.errorEv] }
  | .projectMissing =>
    { ops := [.execOp, .execOp, .rollbackOp, .closeOp], committed := false,
      events := [.errorEv] }
  | .fetchFailure =>
    { ops := [.execOp, .execOp, .rollbackOp, .closeOp], committed := false,
      events := [.errorEv] }
  | .disconnectBeforeCommit n =>
    { ops := [.execOp, .execOp, .execOp, .execOp, .execOp, .rollbackOp,
        .closeOp],
      committed := false, events := [.startEv] ++ contentEvents n }
  | .streamFailure n =>
    { ops := [.execOp, .execOp, .execOp, .execOp, .execOp, .rollbackOp,
        .closeOp],
      committed := false,
      events := [.startEv] ++ contentEvents n ++ [.errorEv] }
  | .commitFailure n =>
    { ops := [.execOp, .execOp, .execOp, .execOp, .execOp, .commitFail,
        .rollbackOp, .closeOp],
      committed := false,
      events := [.startEv] ++ contentEvents n ++ [.errorEv] }
  | .disconnectAtDone n =>
    { ops := [.execOp, .execOp, .execOp, .execOp, .execOp, .commitOk,
        .execOp, .closeOp],
      committed := true,
      events := [.startEv] ++ contentEvents n ++ [.doneEv] }
  | .complete n =>
    { ops := [.execOp, .execOp, .execOp, .execOp, .execOp, .commitOk,
        .execOp, .closeOp],
      committed := true,
      events := [.startEv] ++ contentEvents n ++ [.doneEv] }

/-- Number of successful commits in a session trace. -/
def commitCount (ops : List SessOp) : Nat := ops.count .commitOk

/-- Number of session closes in a trace. -/
def closeCount (ops : List SessOp) : Nat := ops.count .closeOp

/-- Whether an operation is a commit attempt (successful or not). -/
def isCommitAttempt (o : SessOp) : Bool :=
  o == .commitOk || o == .commitFail

/-- Whether some commit attempt occurs anywhere after a rollback. -/
def commitAfterAbort : List SessOp → Bool
  | [] => false
  | .rollbackOp :: rest => rest.any isCommitAttempt || commitAfterAbort rest
  | _ :: rest => commitAfterAbort rest

/-- Replay of the SQLAlchemy `in_transaction()` state along a trace:
queries autobegin a transaction, commit and rollback end it, a failed
commit leaves it pending. -/
def replayInTx (ops : List SessOp) : Bool :=
  ops.foldl
    (fun tx o =>
      match o with
      | .execOp => true
      | .commitOk => false
      | .rollbackOp => false
      | .commitFail => tx
      | .closeOp => tx)
    false

/-- C2: on every exit path of the streaming generator at most one commit
occurs, no commit is ever attempted after a rollback, whenever the committed
flag ends up false the transaction has been rolled back (no transaction is
left open), and the session is closed exactly once, as the final session
operation. -/
theorem c2_stream_session_discipline (s : StreamScenario) :
    commitCount (event_generator s).ops ≤ 1
    ∧ commitAfterAbort (event_generator s).ops = false
    ∧ ((event_generator s).committed = false →
        replayInTx (event_generator s).ops = false)
    ∧ closeCount (event_generator s).ops = 1
    ∧ (event_generator s).ops.getLast? = some .closeOp := by
  cases s <;> simp only [event_generator] <;>
    exact ⟨by decide, by decide, by decide, by decide, by decide⟩

/-- Witness for C2: in the mid-stream-disconnect scenario the committed flag
is false and the replayed transaction state at exit is indeed closed. -/
theorem c2_stream_session_discipline_witness :
    (event_generator (.disconnectBeforeCommit 2)).committed = false ∧
    replayInTx (event_generator (.disconnectBeforeCommit 2)).ops = false :=
  ⟨rfl, (c2_stream_session_discipline (.disconnectBeforeCommit 2)).2.2.1 rfl⟩

/-- C7: on a successful blocking generation the history row's audit copy is
truncated to 500 code points only when the output exceeds 500 (otherwise it
is stored verbatim), while the chapter row receives the full untruncated
content, the `completed` status, and a word count recomputed from the new
content. -/
theorem c7_blocking_persistence (db : Db) (chapter_id ai_content : String)
    (chapter : Chapter) (project : Project)
    (hch : db.chapters.find? (fun c => c.id == chapter_id) = some chapter)
    (hcan : (check_prerequisites db chapter).1 = true)
    (hpr : db.projects.find? (fun p => p.id == chapter.project_id) =
      some project) :
    (generate_chapter_content db chapter_id (.ok ai_content)).status = none
    ∧ (generate_chapter_content db chapter_id (.ok ai_content)).db.history =
        db.history ++ [generationHistoryRow chapter ai_content]
    ∧ (pyLen ai_content ≤ 500 →
        (generationHistoryRow chapter ai_content).generated_content =
          ai_content)
    ∧ (500 < pyLen ai_content →
        (generationHistoryRow chapter ai_content).generated_content =
          pyTake ai_content 500
        ∧ pyLen (generationHistoryRow chapter ai_content).generated_content
            = 500)
    ∧ (generate_chapter_content db chapter_id (.ok ai_content)).db.chapters =
        updateChapterRow db.chapters chapter.id
          { chapter with
            content := some ai_content,
            word_count := pyLen ai_content,
            status := "completed" } := by
  refine ⟨?_, ?_, ?_, ?_, ?_⟩
  · simp [generate_chapter_content, hch, hcan, hpr]
  · simp [generate_chapter_content, hch, hcan, hpr]
  · intro hle
    simp only [generationHistoryRow]
    rw [if_neg (by omega)]
  · intro hgt
    simp only [generationHistoryRow]
    rw [if_pos hgt]
    refine ⟨rfl, ?_⟩
    show (ai_content.data.take 500).length = 500
    rw [List.length_take]
    simp only [pyLen] at hgt
    omega
  · simp [generate_chapter_content, hch, hcan, hpr]

/-- Witness for C7 at the sample store: generating chapter 1 out of a long
text leaves the full text in the chapter row and only 500 code points in the
audit row. -/
theorem c7_blocking_persistence_witness :
    (generate_chapter_content sampleDb "c1"
        (.ok (String.mk (List.replicate 600 '字')))).status = none
    ∧ (500 < pyLen (String.mk (List.replicate 600 '字')) →
        (generationHistoryRow sampleCh1
            (String.mk (List.replicate 600 '字'))).generated_content =
          pyTake (String.mk (List.replicate 600 '字')) 500
        ∧ pyLen (generationHistoryRow sampleCh1
            (String.mk (List.replicate 600 '字'))).generated_content = 500) :=
  ⟨(c7_blocking_persistence sampleDb "c1" (String.mk (List.replicate 600 '字'))
      sampleCh1 sampleProject (by decide) (by decide) (by decide)).1,
   (c7_blocking_persistence sampleDb "c1" (String.mk (List.replicate 600 '字'))
      sampleCh1 sampleProject (by decide) (by decide) (by decide)).2.2.2.1⟩

/-- C9: an update request that sets the content to the empty string rewrites
the content field but leaves the chapter's cached word count and the whole
projects table (hence the owning project's `current_words`) unchanged,
because the recomputation branch requires the new content to be truthy. -/
theorem c9_empty_content_update (db : Db) (chapter_id : String)
    (chapter : Chapter)
    (hch : db.chapters.find? (fun c => c.id == chapter_id) = some chapter) :
    update_chapter db chapter_id
        { title := none, content := some (some ""), summary := none,
          status := none } =
      .ok { db with
        chapters := updateChapterRow db.chapters chapter_id
          { chapter with content := some "" } } := by
  simp [update_chapter, hch, applyChapterUpdate, pyTruthy]

/-- Witness for C9: blanking the content of the sample first chapter keeps
its word count at 2 and the project row list untouched. -/
theorem c9_empty_content_update_witness :
    update_chapter sampleDb "c1"
        { title := none, content := some (some ""), summary := none,
          status := none } =
      .ok { sampleDb with
        chapters := updateChapterRow sampleDb.chapters "c1"
          { sampleCh1 with content := some "" } } :=
  c9_empty_content_update sampleDb "c1" sampleCh1 (by decide)

/-- String append is associative (via the underlying character lists). -/
theorem strAppend_assoc (a b c : String) : a ++ b ++ c = a ++ (b ++ c) := by
  apply String.ext
  simp [String.data_append, List.append_assoc]

/-- The recent-chapters block starts with its banner, so it is never empty. -/
theorem recentContent_ne_empty (l : List Chapter) : recentContent l ≠ "" := by
  intro h
  have h' := congrArg String.data h
  simp only [recentContent, String.data_append] at h'
  exact absurd (List.append_eq_nil.1 h').1 (by decide)

/-- Context-window split for more than 3 prerequisite chapters: early
excerpts followed by the last 3 in full. -/
theorem buildPreviousContent_of_gt3 (l : List Chapter) (h3 : 3 < l.length) :
    buildPreviousContent l =
      earlySummary (l.take (l.length - 3)) ++ "\n\n" ++
        recentContent (l.drop (l.length - 3)) := by
  have hie : l.isEmpty = false := by
    cases l with
    | nil => simp at h3
    | cons a rest => rfl
  have htake : (l.take (l.length - 3)).isEmpty = false := by
    rw [List.isEmpty_eq_false_iff_exists_mem]
    have : l.take (l.length - 3) ≠ [] := by
      simp only [ne_eq, List.take_eq_nil_iff, not_or]
      constructor
      · omega
      · intro h; subst h; simp at h3
    exact List.exists_mem_of_ne_nil _ this
  have hdrop : (l.drop (l.length - 3)).isEmpty = false := by
    rw [List.isEmpty_eq_false_iff_exists_mem]
    have : l.drop (l.length - 3) ≠ [] := by
      simp only [ne_eq, List.drop_eq_nil_iff, not_le]
      omega
    exact List.exists_mem_of_ne_nil _ this
  simp only [buildPreviousContent, hie, Bool.false_eq_true, if_false,
    if_pos h3, htake, hdrop]

/-- Context-window split for 1..3 prerequisite chapters: everything is kept
in full and no early block exists. -/
theorem buildPreviousContent_of_le3 (l : List Chapter) (hne : l ≠ [])
    (h3 : l.length ≤ 3) : buildPreviousContent l = recentContent l := by
  have hie : l.isEmpty = false := by
    cases l with
    | nil => exact absurd rfl hne
    | cons a rest => rfl
  have h3' : ¬(3 < l.length) := by omega
  simp only [buildPreviousContent, hie, Bool.false_eq_true, if_false,
    if_neg h3', List.isEmpty_nil, if_true]
  apply String.ext
  simp [String.data_append]

/-- The previous-content string is empty iff there is no prerequisite
chapter: this is the condition of the hard template branch. -/
theorem buildPreviousContent_eq_empty_iff (l : List Chapter) :
    buildPreviousContent l = "" ↔ l = [] := by
  constructor
  · intro h
    by_contra hne
    by_cases h3 : 3 < l.length
    · rw [buildPreviousContent_of_gt3 l h3] at h
      have h' := congrArg String.data h
      simp only [String.data_append] at h'
      have := (List.append_eq_nil.1 h').2
      exact recentContent_ne_empty _ (String.ext this)
    · rw [buildPreviousContent_of_le3 l hne (by omega)] at h
      exact recentContent_ne_empty _ h
  · intro h
    subst h
    rfl

/-- The continuation prompt decomposes around the previous-content string:
everything before it is the shared header plus the section banner, and
everything after it is the closing block. -/
theorem with_context_prompt_decomp (ttl thm gnr np tp loc atm rl ci oc pc :
    String) (n : Nat) (ct co : String) :
    get_chapter_generation_with_context_prompt ttl thm gnr np tp loc atm rl
        ci oc pc n ct co =
      (chapterPromptHeader ttl thm gnr np tp loc atm rl ci oc ++
          "\n\n【已完成的前置章节内容】\n") ++ pc ++
        chapterContextClosing np n ct co := by
  apply String.ext
  simp [get_chapter_generation_with_context_prompt, chapterPromptContextTail,
    String.data_append, List.append_assoc]

/-- Every excerpt line of the early digest carries at most 200 code points
of content. -/
theorem chapterExcerpt_le_200 (ch : Chapter) :
    pyLen (chapterExcerpt ch) ≤ 200 := by
  unfold chapterExcerpt
  by_cases h : pyTruthy ch.content
  · rw [if_pos h]
    show ((ch.content.getD "").data.take 200).length ≤ 200
    rw [List.length_take]
    omega
  · rw [if_neg h]
    decide

/-- C3: with more than 3 prerequisite chapters the built previous-content
block is exactly the early digest (one excerpt of at most 200 code points
per chapter, prefixed with its number and title) followed by the last 3
chapters in full; with 3 or fewer all chapters appear in full and no early
digest exists; and on the continuation path the prompt handed to the
generation client contains that block verbatim. -/
theorem c3_context_windowing :
    (∀ prev : List Chapter, 3 < prev.length →
        buildPreviousContent prev =
          earlySummary (prev.take (prev.length - 3)) ++ "\n\n" ++
            recentContent (prev.drop (prev.length - 3))
        ∧ (prev.drop (prev.length - 3)).length = 3
        ∧ ∀ ch ∈ prev.take (prev.length - 3), pyLen (chapterExcerpt ch) ≤ 200)
    ∧ (∀ prev : List Chapter, prev ≠ [] → prev.length ≤ 3 →
        buildPreviousContent prev = recentContent prev)
    ∧ (∀ (db : Db) (chapter_id : String) (ai : Except String String)
        (chapter : Chapter) (project : Project),
        db.chapters.find? (fun c => c.id == chapter_id) = some chapter →
        (check_prerequisites db chapter).1 = true →
        db.projects.find? (fun p => p.id == chapter.project_id) =
          some project →
        (check_prerequisites db chapter).2.2 ≠ [] →
        ∃ pre post,
          (generate_chapter_content db chapter_id ai).prompt =
            some (pre ++
              buildPreviousContent ((check_prerequisites db chapter).2.2) ++
              post)) := by
  refine ⟨?_, ?_, ?_⟩
  · intro prev h3
    refine ⟨buildPreviousContent_of_gt3 prev h3, ?_, ?_⟩
    · rw [List.length_drop]
      omega
    · intro ch _
      exact chapterExcerpt_le_200 ch
  · intro prev hne h3
    exact buildPreviousContent_of_le3 prev hne h3
  · intro db chapter_id ai chapter project hch hcan hpr hne
    have hpc :
        buildPreviousContent ((check_prerequisites db chapter).2.2) ≠ "" := by
      intro h
      exact hne ((buildPreviousContent_eq_empty_iff _).1 h)
    have hprompt :
        (generate_chapter_content db chapter_id ai).prompt =
          some (get_chapter_generation_with_context_prompt
            project.title (pyOrStr project.theme "") (pyOrStr project.genre "")
            (pyOrStr project.narrative_perspective "第三人称")
            (pyOrStr project.world_time_period "未设定")
            (pyOrStr project.world_location "未设定")
            (pyOrStr project.world_atmosphere "未设定")
            (pyOrStr project.world_rules "未设定")
            (pyOrS (charactersInfoOf (db.characters.filter
              (fun c => c.project_id == chapter.project_id))) "暂无角色信息")
            (outlinesContextOf ((db.outlines.filter
              (fun o => o.project_id == chapter.project_id)).insertionSort
                (fun a b => a.order_index ≤ b.order_index)))
            (buildPreviousContent ((check_prerequisites db chapter).2.2))
            chapter.chapter_number chapter.title
            (match db.outlines.find? (fun o =>
                o.project_id == chapter.project_id &&
                o.order_index == chapter.chapter_number) with
              | some o => o.content
              | none => pyOrStr chapter.summary "暂无大纲")) := by
      cases ai <;>
        simp only [generate_chapter_content, hch, hcan, Bool.not_true,
          Bool.false_eq_true, if_false, hpr, chapterPrompt, ne_eq, hpc,
          not_false_eq_true, if_true]
    rw [with_context_prompt_decomp] at hprompt
    exact ⟨_, _, hprompt⟩

/-- Four completed chapters of one project, for the windowing witness. -/
def c3Chapters : List Chapter :=
  [{ id := "w1", project_id := "pw", chapter_number := 1, title := "一",
     content := some "甲", summary := none, word_count := 1,
     status := "completed" },
   { id := "w2", project_id := "pw", chapter_number := 2, title := "二",
     content := some "乙", summary := none, word_count := 1,
     status := "completed" },
   { id := "w3", project_id := "pw", chapter_number := 3, title := "三",
     content := some "丙", summary := none, word_count := 1,
     status := "completed" },
   { id := "w4", project_id := "pw", chapter_number := 4, title := "四",
     content := some "丁", summary := none, word_count := 1,
     status := "completed" }]

/-- Witness for C3: the 4-chapter window splits into 1 excerpt plus the last
3 in full, a 1-chapter window is kept whole, and the prompt for the sample
second chapter embeds its previous-content block. -/
theorem c3_context_windowing_witness :
    (buildPreviousContent c3Chapters =
        earlySummary (c3Chapters.take (c3Chapters.length - 3)) ++ "\n\n" ++
          recentContent (c3Chapters.drop (c3Chapters.length - 3))
      ∧ (c3Chapters.drop (c3Chapters.length - 3)).length = 3
      ∧ ∀ ch ∈ c3Chapters.take (c3Chapters.length - 3),
          pyLen (chapterExcerpt ch) ≤ 200)
    ∧ buildPreviousContent [sampleCh1] = recentContent [sampleCh1]
    ∧ ∃ pre post,
        (generate_chapter_content sampleDb "c2" (.ok "续写")).prompt =
          some (pre ++
            buildPreviousContent ((check_prerequisites sampleDb sampleCh2).2.2)
            ++ post) :=
  ⟨c3_context_windowing.1 c3Chapters (by decide),
   c3_context_windowing.2.1 [sampleCh1] (by decide) (by decide),
   c3_context_windowing.2.2 sampleDb "c2" (.ok "续写") sampleCh2
     sampleProject (by decide) (by decide) (by decide) (by decide)⟩

/-- The first-chapter template's text after the shared header begins with
the chapter-info block. -/
theorem chapterPromptTail_take3 (np : String) (n : Nat) (ct co : String) :
    (chapterPromptTail np n ct co).data.take 3 = ['\n', '\n', '本'] := by
  unfold chapterPromptTail
  simp only [String.data_append, List.append_assoc]
  rw [List.take_append_of_le_length (by decide)]
  decide

/-- The continuation template's text after the shared header begins with the
previous-content banner. -/
theorem chapterPromptContextTail_take3 (pc np : String) (n : Nat)
    (ct co : String) :
    (chapterPromptContextTail pc np n ct co).data.take 3 =
      ['\n', '\n', '【'] := by
  unfold chapterPromptContextTail
  simp only [String.data_append, List.append_assoc]
  rw [List.take_append_of_le_length (by decide)]
  decide

/-- The two chapter templates are structurally different: for identical
shared arguments (and any previous content) they can never produce the same
prompt, because the text right after the shared header differs. -/
theorem chapter_templates_differ (ttl thm gnr np tp loc atm rl ci oc pc :
    String) (n : Nat) (ct co : String) :
    get_chapter_generation_prompt ttl thm gnr np tp loc atm rl ci oc n ct co
      ≠ get_chapter_generation_with_context_prompt ttl thm gnr np tp loc atm
          rl ci oc pc n ct co := by
  intro h
  unfold get_chapter_generation_prompt
    get_chapter_generation_with_context_prompt at h
  have h' := congrArg String.data h
  rw [String.data_append, String.data_append] at h'
  have h2 := List.append_cancel_left h'
  have h3 := congrArg (List.take 3) h2
  rw [chapterPromptTail_take3, chapterPromptContextTail_take3] at h3
  exact absurd h3 (by decide)

/-- C6: the previous-content string is empty exactly when there is no
prerequisite chapter; in that case the built prompt is an instance of the
first-chapter template `CHAPTER_GENERATION` (which has no previous-content
section and takes no such argument), while any prerequisite content selects
the structurally different continuation template
`CHAPTER_GENERATION_WITH_CONTEXT`; the two templates never agree on any
input. -/
theorem c6_first_chapter_branch (db : Db) (chapter_id : String)
    (ai : Except String String) (chapter : Chapter) (project : Project)
    (hch : db.chapters.find? (fun c => c.id == chapter_id) = some chapter)
    (hcan : (check_prerequisites db chapter).1 = true)
    (hpr : db.projects.find? (fun p => p.id == chapter.project_id) =
      some project) :
    (∀ prev : List Chapter, buildPreviousContent prev = "" ↔ prev = [])
    ∧ ((check_prerequisites db chapter).2.2 = [] →
        (generate_chapter_content db chapter_id ai).prompt =
          some (get_chapter_generation_prompt
            project.title (pyOrStr project.theme "") (pyOrStr project.genre "")
            (pyOrStr project.narrative_perspective "第三人称")
            (pyOrStr project.world_time_period "未设定")
            (pyOrStr project.world_location "未设定")
            (pyOrStr project.world_atmosphere "未设定")
            (pyOrStr project.world_rules "未设定")
            (pyOrS (charactersInfoOf (db.characters.filter
              (fun c => c.project_id == chapter.project_id))) "暂无角色信息")
            (outlinesContextOf ((db.outlines.filter
              (fun o => o.project_id == chapter.project_id)).insertionSort
                (fun a b => a.order_index ≤ b.order_index)))
            chapter.chapter_number chapter.title
            (match db.outlines.find? (fun o =>
                o.project_id == chapter.project_id &&
                o.order_index == chapter.chapter_number) with
              | some o => o.content
              | none => pyOrStr chapter.summary "暂无大纲")))
    ∧ ((check_prerequisites db chapter).2.2 ≠ [] →
        (generate_chapter_content db chapter_id ai).prompt =
          some (get_chapter_generation_with_context_prompt
            project.title (pyOrStr project.theme "") (pyOrStr project.genre "")
            (pyOrStr project.narrative_perspective "第三人称")
            (pyOrStr project.world_time_period "未设定")
            (pyOrStr project.world_location "未设定")
            (pyOrStr project.world_atmosphere "未设定")
            (pyOrStr project.world_rules "未设定")
            (pyOrS (charactersInfoOf (db.characters.filter
              (fun c => c.project_id == chapter.project_id))) "暂无角色信息")
            (outlinesContextOf ((db.outlines.filter
              (fun o => o.project_id == chapter.project_id)).insertionSort
                (fun a b => a.order_index ≤ b.order_index)))
            (buildPreviousContent ((check_prerequisites db chapter).2.2))
            chapter.chapter_number chapter.title
            (match db.outlines.find? (fun o =>
                o.project_id == chapter.project_id &&
                o.order_index == chapter.chapter_number) with
              | some o => o.content
              | none => pyOrStr chapter.summary "暂无大纲")))
    ∧ (∀ ttl thm gnr np tp loc atm rl ci oc pc n ct co,
        get_chapter_generation_prompt ttl thm gnr np tp loc atm rl ci oc n
            ct co ≠
          get_chapter_generation_with_context_prompt ttl thm gnr np tp loc
            atm rl ci oc pc n ct co) := by
  refine ⟨buildPreviousContent_eq_empty_iff, ?_, ?_, chapter_templates_differ⟩
  · intro hempty
    have hpc : buildPreviousContent ((check_prerequisites db chapter).2.2)
        = "" := by
      rw [hempty]
      rfl
    cases ai <;>
      simp only [generate_chapter_content, hch, hcan, Bool.not_true,
        Bool.false_eq_true, if_false, hpr, chapterPrompt, ne_eq, hpc,
        not_true_eq_false, if_false, not_false_eq_true]
  · intro hne
    have hpc : buildPreviousContent ((check_prerequisites db chapter).2.2)
        ≠ "" := by
      intro h
      exact hne ((buildPreviousContent_eq_empty_iff _).1 h)
    cases ai <;>
      simp only [generate_chapter_content, hch, hcan, Bool.not_true,
        Bool.false_eq_true, if_false, hpr, chapterPrompt, ne_eq, hpc,
        not_false_eq_true, if_true]

/-- Witness for C6 at the sample store: chapter 1 has no prerequisites, its
previous-content string is empty, and its prompt instantiates the
first-chapter template. -/
theorem c6_first_chapter_branch_witness :
    (buildPreviousContent [] = "" ↔ ([] : List Chapter) = [])
    ∧ (generate_chapter_content sampleDb "c1" (.ok "开端")).prompt =
        some (get_chapter_generation_prompt
          sampleProject.title (pyOrStr sampleProject.theme "")
          (pyOrStr sampleProject.genre "")
          (pyOrStr sampleProject.narrative_perspective "第三人称")
          (pyOrStr sampleProject.world_time_period "未设定")
          (pyOrStr sampleProject.world_location "未设定")
          (pyOrStr sampleProject.world_atmosphere "未设定")
          (pyOrStr sampleProject.world_rules "未设定")
          (pyOrS (charactersInfoOf (sampleDb.characters.filter
            (fun c => c.project_id == sampleCh1.project_id))) "暂无角色信息")
          (outlinesContextOf ((sampleDb.outlines.filter
            (fun o => o.project_id == sampleCh1.project_id)).insertionSort
              (fun a b => a.order_index ≤ b.order_index)))
          sampleCh1.chapter_number sampleCh1.title
          (match sampleDb.outlines.find? (fun o =>
              o.project_id == sampleCh1.project_id &&
              o.order_index == sampleCh1.chapter_number) with
            | some o => o.content
            | none => pyOrStr sampleCh1.summary "暂无大纲")) :=
  ⟨(c6_first_chapter_branch sampleDb "c1" (.ok "开端") sampleCh1
      sampleProject (by decide) (by decide) (by decide)).1 [],
   (c6_first_chapter_branch sampleDb "c1" (.ok "开端") sampleCh1
      sampleProject (by decide) (by decide) (by decide)).2.1 (by decide)⟩

/-- A chapter whose project row does not exist (eligible at position 1). -/
def c8Chapter : Chapter :=
  { id := "c8", project_id := "p404", chapter_number := 1, title := "孤章",
    content := none, summary := none, word_count := 0, status := "draft" }

/-- Store containing `c8Chapter` but no project row at all. -/
def c8Db : Db :=
  { projects := [], chapters := [c8Chapter], outlines := [], characters := [],
    history := [] }

/-- Counterexample for C8: for a generation request whose chapter exists and
passes the precondition but whose project row is missing, the blocking
endpoint responds 500 (the 404 raised inside the `try` block is swallowed by
the generic `except Exception` handler), which is neither a 400 client error
nor a 404 not-found — still with no generation-client call (`effects = []`). -/
theorem c8_counterexample :
    (generate_chapter_content c8Db "c8" (.ok "正文")).status = some 500
    ∧ (generate_chapter_content c8Db "c8" (.ok "正文")).effects = []
    ∧ (generate_chapter_content c8Db "c8" (.ok "正文")).status ≠ some 404
    ∧ (generate_chapter_content c8Db "c8" (.ok "正文")).status ≠ some 400 := by
  decide

/-- C8 (amended): precondition violations and not-found conditions are
detected and reported before any generation-client call (the effect trace is
empty): a missing chapter is rejected 404, a failed precondition 400 with
the message naming the blocking positions, and a missing project is detected
before the call but surfaces as a 500 wrapping the not-found detail; the
streaming generator, on a missing chapter or project, emits a single error
event (no start/content/done) and terminates. -/
theorem c8_fail_fast (db : Db) (chapter_id : String)
    (ai : Except String String) :
    (db.chapters.find? (fun c => c.id == chapter_id) = none →
      generate_chapter_content db chapter_id ai =
        { status := some 404, detail := "章节不存在", response := none,
          db := db, effects := [], prompt := none })
    ∧ (∀ chapter,
        db.chapters.find? (fun c => c.id == chapter_id) = some chapter →
        (check_prerequisites db chapter).1 = false →
        generate_chapter_content db chapter_id ai =
          { status := some 400,
            detail := (check_prerequisites db chapter).2.1,
            response := none, db := db, effects := [], prompt := none })
    ∧ (∀ chapter,
        db.chapters.find? (fun c => c.id == chapter_id) = some chapter →
        (check_prerequisites db chapter).1 = true →
        db.projects.find? (fun p => p.id == chapter.project_id) = none →
        generate_chapter_content db chapter_id ai =
          { status := some 500, detail := "创作章节失败: 404: 项目不存在",
            response := none, db := db, effects := [], prompt := none })
    ∧ ((event_generator .chapterMissing).events = [.errorEv]
        ∧ (event_generator .projectMissing).events = [.errorEv]) := by
  refine ⟨?_, ?_, ?_, rfl, rfl⟩
  · intro hnone
    simp [generate_chapter_content, hnone]
  · intro chapter hch hfail
    simp [generate_chapter_content, hch, hfail]
  · intro chapter hch hcan hnp
    simp [generate_chapter_content, hch, hcan, hnp]

/-- Witness for C8 (amended) at concrete stores: an unknown chapter id gives
the 404 outcome and the blocked third sample chapter gives the 400 outcome,
both with an empty effect trace. -/
theorem c8_fail_fast_witness :
    generate_chapter_content sampleDb "ghost" (.ok "正文") =
      { status := some 404, detail := "章节不存在", response := none,
        db := sampleDb, effects := [], prompt := none }
    ∧ generate_chapter_content sampleDb "c3" (.ok "正文") =
      { status := some 400,
        detail := (check_prerequisites sampleDb sampleCh3).2.1,
        response := none, db := sampleDb, effects := [], prompt := none } :=
  ⟨(c8_fail_fast sampleDb "ghost" (.ok "正文")).1 (by decide),
   (c8_fail_fast sampleDb "c3" (.ok "正文")).2.1 sampleCh3 (by decide)
     (by decide)⟩

/-- Field lemma: a chapter update request can never change `word_count`
(the schema has no such field). -/
theorem applyChapterUpdate_word_count (payload : ChapterUpdatePayload)
    (ch : Chapter) :
    (applyChapterUpdate payload ch).word_count = ch.word_count := by
  rcases payload with ⟨t, c, sm, st⟩
  cases t <;> cases c <;> cases sm <;> cases st <;> rfl

/-- Field lemma: a chapter update request can never move the chapter to a
different project. -/
theorem applyChapterUpdate_project_id (payload : ChapterUpdatePayload)
    (ch : Chapter) :
    (applyChapterUpdate payload ch).project_id = ch.project_id := by
  rcases payload with ⟨t, c, sm, st⟩
  cases t <;> cases c <;> cases sm <;> cases st <;> rfl

/-- Field lemma: a chapter update request can never change the primary key. -/
theorem applyChapterUpdate_id (payload : ChapterUpdatePayload) (ch : Chapter) :
    (applyChapterUpdate payload ch).id = ch.id := by
  rcases payload with ⟨t, c, sm, st⟩
  cases t <;> cases c <;> cases sm <;> cases st <;> rfl

/-- Field lemma: when the request provides `content`, the applied row
carries exactly the provided value. -/
theorem applyChapterUpdate_content (payload : ChapterUpdatePayload)
    (ch : Chapter) (v : Option String) (h : payload.content = some v) :
    (applyChapterUpdate payload ch).content = v := by
  rcases payload with ⟨t, c, sm, st⟩
  cases c with
  | none => exact absurd h (by simp)
  | some c' =>
    have : c' = v := by simpa using h
    subst this
    cases t <;> cases sm <;> cases st <;> rfl

/-- C10: every word count the system stores is the code-point length of the
content string (`len(content)` in Python), not a count of
whitespace-delimited words: on create the inserted row carries
`len(content)` and the project total grows by it; on an update with truthy
content the row carries `len(new content)`; on successful generation the row
carries `len(generated text)`. -/
theorem c10_word_count_is_char_length :
    (∀ (db : Db) (new_id : String) (payload : ChapterCreatePayload)
        (project : Project) (content : String) (db' : Db),
        db.projects.find? (fun p => p.id == payload.project_id) =
          some project →
        payload.content = some content →
        create_chapter db new_id payload = .ok db' →
        (∃ c', db'.chapters = db.chapters ++ [c']
          ∧ c'.word_count = content.data.length)
        ∧ db'.projects = updateProjectRow db.projects project.id
            { project with
              current_words :=
                project.current_words + content.data.length })
    ∧ (∀ (db : Db) (chapter_id : String) (payload : ChapterUpdatePayload)
        (chapter : Chapter) (newContent : String) (db' : Db),
        db.chapters.find? (fun c => c.id == chapter_id) = some chapter →
        payload.content = some (some newContent) → newContent ≠ "" →
        update_chapter db chapter_id payload = .ok db' →
        db'.chapters = updateChapterRow db.chapters chapter_id
          { applyChapterUpdate payload chapter with
            word_count := newContent.data.length })
    ∧ (∀ (db : Db) (chapter_id ai_content : String) (chapter : Chapter)
        (project : Project),
        db.chapters.find? (fun c => c.id == chapter_id) = some chapter →
        (check_prerequisites db chapter).1 = true →
        db.projects.find? (fun p => p.id == chapter.project_id) =
          some project →
        (generate_chapter_content db chapter_id (.ok ai_content)).db.chapters
          = updateChapterRow db.chapters chapter.id
              { chapter with
                content := some ai_content,
                word_count := ai_content.data.length,
                status := "completed" }) := by
  refine ⟨?_, ?_, ?_⟩
  · intro db new_id payload project content db' hproj hpay hok
    simp only [create_chapter, hproj, hpay] at hok
    injection hok with hok
    subst hok
    exact ⟨⟨_, rfl, rfl⟩, rfl⟩
  · intro db chapter_id payload chapter newContent db' hch hpay hne hok
    have hc := applyChapterUpdate_content payload chapter (some newContent)
      hpay
    have hsome : payload.content.isSome = true := by rw [hpay]; rfl
    have hcond : pyTruthy (some newContent) = true := by
      simpa [pyTruthy] using hne
    simp only [update_chapter, hch, hsome, hc, hcond, Bool.and_self, if_true,
      Option.getD_some] at hok
    cases hproj : db.projects.find? (fun p => p.id == chapter.project_id) with
    | none =>
      rw [hproj] at hok
      injection hok with hok
      subst hok
      simp only [hc, pyLen]
    | some project =>
      rw [hproj] at hok
      injection hok with hok
      subst hok
      simp only [hc, pyLen]
  · intro db chapter_id ai_content chapter project hch hcan hpr
    simp [generate_chapter_content, hch, hcan, hpr, pyLen]

/-- Witness for C10: creating a chapter whose content is `"两 个"` (three
code points including the space) stores a word count of 3, not 2. -/
theorem c10_word_count_is_char_length_witness :
    (∃ c',
      (match create_chapter sampleDb "cNew"
          { project_id := "p1", title := "新章", chapter_number := 4,
            content := some "两 个", summary := none, status := "draft" } with
        | .ok db' => db'.chapters
        | .error _ => []) = sampleDb.chapters ++ [c']
      ∧ c'.word_count = ("两 个".data).length)
    ∧ ("两 个".data).length = 3 := by
  have h := (c10_word_count_is_char_length.1 sampleDb "cNew"
    { project_id := "p1", title := "新章", chapter_number := 4,
      content := some "两 个", summary := none, status := "draft" }
    sampleProject "两 个" _ (by decide) rfl rfl).1
  exact ⟨h, by decide⟩

/-- Sum of the cached word counts of the chapters of one project. -/
def chapterWords (cs : List Chapter) (pid : String) : Int :=
  ((cs.filter (fun c => c.project_id == pid)).map
    (fun c => (c.word_count : Int))).sum

/-- The word-count consistency invariant: every project's cached
`current_words` equals the sum of its chapters' cached word counts. -/
def wordInvariant (db : Db) : Prop :=
  ∀ p ∈ db.projects, p.current_words = chapterWords db.chapters p.id

/-- Cons unfolding of the per-project word sum. -/
theorem chapterWords_cons (c : Chapter) (cs : List Chapter) (pid : String) :
    chapterWords (c :: cs) pid =
      (if c.project_id == pid then (c.word_count : Int) else 0)
        + chapterWords cs pid := by
  by_cases h : c.project_id == pid
  · simp [chapterWords, List.filter_cons, h]
  · simp [chapterWords, List.filter_cons, h]

/-- Append unfolding of the per-project word sum. -/
theorem chapterWords_append (cs ds : List Chapter) (pid : String) :
    chapterWords (cs ++ ds) pid = chapterWords cs pid + chapterWords ds pid := by
  simp [chapterWords, List.filter_append]

/-- Under unique primary keys, `find?` by key determines any member with the
same key. -/
theorem find_key_unique {α : Type} (l : List α) (f : α → String) (t : String)
    (x : α) (hf : l.find? (fun a => f a == t) = some x)
    (hn : (l.map f).Nodup) : ∀ y ∈ l, f y = t → y = x := by
  intro y hy hyt
  have hx := List.mem_of_find?_eq_some hf
  have hxt : f x = t := by simpa using List.find?_some hf
  exact List.inj_on_of_nodup_map hn hy hx (by rw [hyt, hxt])

/-- A row update leaves a list untouched when no element carries the key. -/
theorem updateChapterRow_of_no_match (cs : List Chapter) (cid : String)
    (c' : Chapter) (h : ∀ c ∈ cs, ¬(c.id = cid)) :
    updateChapterRow cs cid c' = cs := by
  induction cs with
  | nil => rfl
  | cons a rest ih =>
    have ha : (a.id == cid) = false := by
      simpa using h a (List.mem_cons_self a rest)
    simp only [updateChapterRow, List.map_cons, ha, Bool.false_eq_true,
      if_false]
    rw [show List.map (fun c => if c.id == cid then c' else c) rest =
        updateChapterRow rest cid c' from rfl,
      ih (fun c hc => h c (List.mem_cons_of_mem a hc))]

/-- Replacing the unique row carrying a key shifts the per-project word sum
by exactly the old and new contributions of that row. -/
theorem chapterWords_updateRow (cs : List Chapter) (cid : String)
    (ch0 c' : Chapter)
    (hfind : cs.find? (fun c => c.id == cid) = some ch0)
    (hnodup : (cs.map (fun c => c.id)).Nodup) (pid : String) :
    chapterWords (updateChapterRow cs cid c') pid =
      chapterWords cs pid
        - (if ch0.project_id == pid then (ch0.word_count : Int) else 0)
        + (if c'.project_id == pid then (c'.word_count : Int) else 0) := by
  induction cs with
  | nil => simp at hfind
  | cons a rest ih =>
    rw [List.map_cons, List.nodup_cons] at hnodup
    by_cases ha : (a.id == cid) = true
    · rw [List.find?_cons_of_pos rest ha] at hfind
      have haeq : a = ch0 := by injection hfind
      subst haeq
      have hid : a.id = cid := by simpa using ha
      have hrest : updateChapterRow rest cid c' = rest := by
        apply updateChapterRow_of_no_match
        intro c hc hcid
        refine hnodup.1 ?_
        rw [hid, ← hcid]
        exact List.mem_map_of_mem (fun x => x.id) hc
      show chapterWords
          ((if (a.id == cid) = true then c' else a) ::
            updateChapterRow rest cid c') pid = _
      rw [if_pos ha, hrest, chapterWords_cons, chapterWords_cons]
      ring
    · rw [List.find?_cons_of_neg rest ha] at hfind
      show chapterWords
          ((if (a.id == cid) = true then c' else a) ::
            updateChapterRow rest cid c') pid = _
      rw [if_neg ha, chapterWords_cons, chapterWords_cons, ih hfind hnodup.2]
      ring

/-- Deleting the unique row carrying a key removes exactly its contribution
from the per-project word sum. -/
theorem chapterWords_delete (cs : List Chapter) (cid : String) (ch0 : Chapter)
    (hfind : cs.find? (fun c => c.id == cid) = some ch0)
    (hnodup : (cs.map (fun c => c.id)).Nodup) (pid : String) :
    chapterWords (cs.filter (fun c => !(c.id == cid))) pid =
      chapterWords cs pid
        - (if ch0.project_id == pid then (ch0.word_count : Int) else 0) := by
  induction cs with
  | nil => simp at hfind
  | cons a rest ih =>
    rw [List.map_cons, List.nodup_cons] at hnodup
    by_cases ha : (a.id == cid) = true
    · rw [List.find?_cons_of_pos rest ha] at hfind
      have haeq : a = ch0 := by injection hfind
      subst haeq
      have hid : a.id = cid := by simpa using ha
      have hrest : rest.filter (fun c => !(c.id == cid)) = rest := by
        rw [List.filter_eq_self]
        intro c hc
        simp only [Bool.not_eq_true']
        rw [beq_eq_false_iff_ne]
        intro hcid
        refine hnodup.1 ?_
        rw [hid, ← hcid]
        exact List.mem_map_of_mem (fun x => x.id) hc
      rw [List.filter_cons_of_neg (by simp [ha]), hrest, chapterWords_cons]
      ring
    · rw [List.find?_cons_of_neg rest ha] at hfind
      rw [List.filter_cons_of_pos (by simp [ha]), chapterWords_cons,
        chapterWords_cons, ih hfind hnodup.2]
      ring

/-- The word count of any chapter of a project is at most the project's
chapter word sum (all contributions are non-negative). -/
theorem word_count_le_chapterWords (cs : List Chapter) (ch0 : Chapter)
    (hmem : ch0 ∈ cs) (pid : String) (hpid : (ch0.project_id == pid) = true) :
    (ch0.word_count : Int) ≤ chapterWords cs pid := by
  have hmemf : ch0 ∈ cs.filter (fun c => c.project_id == pid) :=
    List.mem_filter.2 ⟨hmem, hpid⟩
  have hmemm : ((ch0.word_count : Int)) ∈
      (cs.filter (fun c => c.project_id == pid)).map
        (fun c => (c.word_count : Int)) :=
    List.mem_map_of_mem _ hmemf
  refine List.single_le_sum ?_ _ hmemm
  intro x hx
  obtain ⟨c, _, rfl⟩ := List.mem_map.1 hx
  positivity

/-- Empty-store word sum. -/
theorem chapterWords_nil (pid : String) : chapterWords [] pid = 0 := rfl

/-- Creating a chapter preserves the word-count invariant: the inserted
row's count and the project-total increment are the same `len(content)`. -/
theorem create_preserves_wordInvariant (db : Db) (new_id : String)
    (payload : ChapterCreatePayload) (db' : Db)
    (hinv : wordInvariant db)
    (hok : create_chapter db new_id payload = .ok db') :
    wordInvariant db' := by
  cases hproj : db.projects.find? (fun p => p.id == payload.project_id) with
  | none => simp [create_chapter, hproj] at hok
  | some project =>
    cases hpay : payload.content with
    | none => simp [create_chapter, hproj, hpay] at hok
    | some content =>
      simp only [create_chapter, hproj, hpay] at hok
      injection hok with hok
      subst hok
      have hprojid : project.id = payload.project_id := by
        simpa using List.find?_some hproj
      intro p' hp'
      simp only [updateProjectRow] at hp'
      obtain ⟨q, hq, hq'⟩ := List.mem_map.1 hp'
      by_cases hqid : (q.id == project.id) = true
      · rw [if_pos hqid] at hq'
        subst hq'
        have hmem := List.mem_of_find?_eq_some hproj
        have hcnd : (payload.project_id == project.id) = true := by
          rw [hprojid]
          exact beq_self_eq_true _
        simp only [chapterWords_append, chapterWords_cons, chapterWords_nil,
          hcnd, if_true]
        rw [hinv project hmem]
        ring
      · rw [if_neg hqid] at hq'
        subst hq'
        have hne : (payload.project_id == q.id) = false := by
          rw [← hprojid, beq_eq_false_iff_ne]
          intro h
          exact hqid (by rw [h]; exact beq_self_eq_true _)
        simp only [chapterWords_append, chapterWords_cons, chapterWords_nil,
          hne, Bool.false_eq_true, if_false]
        rw [hinv q hq]
        ring

/-- Symmetric form of a failed key comparison. -/
theorem beq_symm_false {a b : String} (h : (a == b) = false) :
    (b == a) = false := by
  rw [beq_eq_false_iff_ne] at h ⊢
  exact fun hba => h hba.symm

/-- Updating a chapter preserves the word-count invariant: the recompute
branch applies the same delta to the row and the project total, and the
other branch changes neither word counts nor project rows. -/
theorem update_preserves_wordInvariant (db : Db) (chapter_id : String)
    (payload : ChapterUpdatePayload) (db' : Db)
    (hcn : (db.chapters.map (fun c => c.id)).Nodup)
    (hinv : wordInvariant db)
    (hok : update_chapter db chapter_id payload = .ok db') :
    wordInvariant db' := by
  cases hch : db.chapters.find? (fun c => c.id == chapter_id) with
  | none => simp [update_chapter, hch] at hok
  | some chapter =>
    by_cases hcond : (payload.content.isSome &&
        pyTruthy (applyChapterUpdate payload chapter).content) = true
    · simp only [update_chapter, hch, hcond, if_true] at hok
      cases hproj : db.projects.find?
          (fun p => p.id == chapter.project_id) with
      | none =>
        rw [hproj] at hok
        injection hok with hok
        subst hok
        intro p' hp'
        have hne : (p'.id == chapter.project_id) = false := by
          have := List.find?_eq_none.1 hproj p' hp'
          simpa using this
        have hne' : (chapter.project_id == p'.id) = false := beq_symm_false hne
        rw [show ({ db with
            chapters := updateChapterRow db.chapters chapter_id
              { applyChapterUpdate payload chapter with
                word_count :=
                  pyLen ((applyChapterUpdate payload chapter).content.getD "") } } : Db).chapters =
          updateChapterRow db.chapters chapter_id
            { applyChapterUpdate payload chapter with
              word_count :=
                pyLen ((applyChapterUpdate payload chapter).content.getD "") }
          from rfl]
        rw [chapterWords_updateRow db.chapters chapter_id chapter _ hch hcn]
        simp only [applyChapterUpdate_project_id, hne', Bool.false_eq_true,
          if_false]
        rw [hinv p' hp']
        ring
      | some project =>
        rw [hproj] at hok
        injection hok with hok
        subst hok
        have hprojid : project.id = chapter.project_id := by
          simpa using List.find?_some hproj
        intro p' hp'
        simp only [updateProjectRow] at hp'
        obtain ⟨q, hq, hq'⟩ := List.mem_map.1 hp'
        by_cases hqid : (q.id == project.id) = true
        · rw [if_pos hqid] at hq'
          subst hq'
          have hcnd : (chapter.project_id == project.id) = true := by
            rw [hprojid]
            exact beq_self_eq_true _
          rw [show ({ db with
              chapters := updateChapterRow db.chapters chapter_id
                { applyChapterUpdate payload chapter with
                  word_count :=
                    pyLen ((applyChapterUpdate payload chapter).content.getD "") },
              projects := updateProjectRow db.projects project.id
                { project with
                  current_words := project.current_words
                    - (chapter.word_count : Int)
                    + (pyLen ((applyChapterUpdate payload chapter).content.getD "") : Int) } } : Db).chapters =
            updateChapterRow db.chapters chapter_id
              { applyChapterUpdate payload chapter with
                word_count :=
                  pyLen ((applyChapterUpdate payload chapter).content.getD "") }
            from rfl]
          rw [chapterWords_updateRow db.chapters chapter_id chapter _ hch hcn]
          simp only [applyChapterUpdate_project_id, hcnd, if_true]
          rw [hinv project (List.mem_of_find?_eq_some hproj)]
        · rw [if_neg hqid] at hq'
          subst hq'
          have hne : (chapter.project_id == q.id) = false := by
            rw [← hprojid]
            exact beq_symm_false (by simpa using hqid)
          simp only [chapterWords_updateRow db.chapters chapter_id chapter _
            hch hcn, applyChapterUpdate_project_id, hne, Bool.false_eq_true,
            if_false]
          rw [hinv q hq]
          ring
    · simp only [update_chapter, hch, hcond, Bool.false_eq_true, if_false]
        at hok
      injection hok with hok
      subst hok
      intro p' hp'
      rw [show ({ db with
          chapters := updateChapterRow db.chapters chapter_id
            (applyChapterUpdate payload chapter) } : Db).chapters =
        updateChapterRow db.chapters chapter_id
          (applyChapterUpdate payload chapter) from rfl]
      rw [chapterWords_updateRow db.chapters chapter_id chapter _ hch hcn]
      rw [applyChapterUpdate_project_id, applyChapterUpdate_word_count]
      rw [hinv p' hp']
      ring

/-- Deleting a chapter preserves the word-count invariant; thanks to the
invariant the clamp `max(0, ..)` never actually truncates. -/
theorem delete_preserves_wordInvariant (db : Db) (chapter_id : String)
    (db' : Db)
    (hcn : (db.chapters.map (fun c => c.id)).Nodup)
    (hinv : wordInvariant db)
    (hok : delete_chapter db chapter_id = .ok db') :
    wordInvariant db' := by
  cases hch : db.chapters.find? (fun c => c.id == chapter_id) with
  | none => simp [delete_chapter, hch] at hok
  | some chapter =>
    have hchmem := List.mem_of_find?_eq_some hch
    cases hproj : db.projects.find? (fun p => p.id == chapter.project_id) with
    | none =>
      simp only [delete_chapter, hch, hproj] at hok
      injection hok with hok
      subst hok
      intro p' hp'
      have hne : (p'.id == chapter.project_id) = false := by
        simpa using List.find?_eq_none.1 hproj p' hp'
      have hne' : (chapter.project_id == p'.id) = false := beq_symm_false hne
      rw [show ({ db with
          chapters := db.chapters.filter (fun c => !(c.id == chapter_id)) } :
            Db).chapters =
        db.chapters.filter (fun c => !(c.id == chapter_id)) from rfl]
      rw [chapterWords_delete db.chapters chapter_id chapter hch hcn]
      rw [hne']
      simp only [Bool.false_eq_true, if_false]
      rw [hinv p' hp']
      ring
    | some project =>
      simp only [delete_chapter, hch, hproj] at hok
      injection hok with hok
      subst hok
      have hprojid : project.id = chapter.project_id := by
        simpa using List.find?_some hproj
      intro p' hp'
      simp only [updateProjectRow] at hp'
      obtain ⟨q, hq, hq'⟩ := List.mem_map.1 hp'
      by_cases hqid : (q.id == project.id) = true
      · rw [if_pos hqid] at hq'
        subst hq'
        have hcnd : (chapter.project_id == project.id) = true := by
          rw [hprojid]
          exact beq_self_eq_true _
        rw [chapterWords_delete db.chapters chapter_id chapter hch hcn]
        simp only [hcnd, if_true]
        rw [hinv project (List.mem_of_find?_eq_some hproj)]
        have hle : (chapter.word_count : Int) ≤
            chapterWords db.chapters project.id :=
          word_count_le_chapterWords db.chapters chapter hchmem project.id hcnd
        exact max_eq_right (by omega)
      · rw [if_neg hqid] at hq'
        subst hq'
        have hne : (chapter.project_id == q.id) = false := by
          rw [← hprojid]
          exact beq_symm_false (by simpa using hqid)
        rw [chapterWords_delete db.chapters chapter_id chapter hch hcn]
        simp only [hne, Bool.false_eq_true, if_false]
        rw [hinv q hq]
        ring

/-- A successful blocking generation preserves the word-count invariant: the
same `- old + new` delta is applied to the chapter row and to the project
total. -/
theorem generate_preserves_wordInvariant (db : Db)
    (chapter_id ai_content : String)
    (hcn : (db.chapters.map (fun c => c.id)).Nodup)
    (hinv : wordInvariant db)
    (hsucc : (generate_chapter_content db chapter_id (.ok ai_content)).status
      = none) :
    wordInvariant
      (generate_chapter_content db chapter_id (.ok ai_content)).db := by
  cases hch : db.chapters.find? (fun c => c.id == chapter_id) with
  | none => simp [generate_chapter_content, hch] at hsucc
  | some chapter =>
    by_cases hcan : (check_prerequisites db chapter).1 = true
    · cases hproj : db.projects.find?
          (fun p => p.id == chapter.project_id) with
      | none => simp [generate_chapter_content, hch, hcan, hproj] at hsucc
      | some project =>
        have hchid : chapter.id = chapter_id := by
          simpa using List.find?_some hch
        have hprojid : project.id = chapter.project_id := by
          simpa using List.find?_some hproj
        have hdb : (generate_chapter_content db chapter_id
            (.ok ai_content)).db =
          { db with
            chapters := updateChapterRow db.chapters chapter.id
              { chapter with
                content := some ai_content,
                word_count := pyLen ai_content,
                status := "completed" },
            projects := updateProjectRow db.projects project.id
              { project with
                current_words := project.current_words
                  - (chapter.word_count : Int)
                  + (pyLen ai_content : Int) },
            history := db.history ++ [generationHistoryRow chapter
              ai_content] } := by
          simp [generate_chapter_content, hch, hcan, hproj]
        rw [hdb]
        intro p' hp'
        simp only [updateProjectRow] at hp'
        obtain ⟨q, hq, hq'⟩ := List.mem_map.1 hp'
        have hfind' : db.chapters.find? (fun c => c.id == chapter.id) =
            some chapter := by
          rw [hchid]
          exact hch
        by_cases hqid : (q.id == project.id) = true
        · rw [if_pos hqid] at hq'
          subst hq'
          have hcnd : (chapter.project_id == project.id) = true := by
            rw [hprojid]
            exact beq_self_eq_true _
          rw [show ({ db with
              chapters := updateChapterRow db.chapters chapter.id
                { chapter with
                  content := some ai_content,
                  word_count := pyLen ai_content,
                  status := "completed" },
              projects := updateProjectRow db.projects project.id
                { project with
                  current_words := project.current_words
                    - (chapter.word_count : Int)
                    + (pyLen ai_content : Int) },
              history := db.history ++ [generationHistoryRow chapter
                ai_content] } : Db).chapters =
            updateChapterRow db.chapters chapter.id
              { chapter with
                content := some ai_content,
                word_count := pyLen ai_content,
                status := "completed" } from rfl]
          rw [chapterWords_updateRow db.chapters chapter.id chapter _
            hfind' hcn]
          simp only [hcnd, if_true]
          rw [hinv project (List.mem_of_find?_eq_some hproj)]
        · rw [if_neg hqid] at hq'
          subst hq'
          have hne : (chapter.project_id == q.id) = false := by
            rw [← hprojid]
            exact beq_symm_false (by simpa using hqid)
          rw [show ({ db with
              chapters := updateChapterRow db.chapters chapter.id
                { chapter with
                  content := some ai_content,
                  word_count := pyLen ai_content,
                  status := "completed" },
              projects := updateProjectRow db.projects project.id
                { project with
                  current_words := project.current_words
                    - (chapter.word_count : Int)
                    + (pyLen ai_content : Int) },
              history := db.history ++ [generationHistoryRow chapter
                ai_content] } : Db).chapters =
            updateChapterRow db.chapters chapter.id
              { chapter with
                content := some ai_content,
                word_count := pyLen ai_content,
                status := "completed" } from rfl]
          rw [chapterWords_updateRow db.chapters chapter.id chapter _
            hfind' hcn]
          simp only [hne, Bool.false_eq_true, if_false]
          rw [hinv q hq]
          ring
    · have hcanf : (check_prerequisites db chapter).1 = false := by
        simpa using hcan
      simp [generate_chapter_content, hch, hcanf] at hsucc

/-- C4: under unique primary keys, every successful chapter content mutation
(create, update, AI generation, delete) preserves the invariant that the
owning project's cached `current_words` equals the (fully recomputed) sum of
its chapters' word counts; moreover the update path applies the delta
formula `old_total - old_chapter_words + new_chapter_words` to the project
row and the delete path stores `max(0, old_total - chapter_words)`. -/
theorem c4_project_word_total (db : Db)
    (hcn : (db.chapters.map (fun c => c.id)).Nodup)
    (hinv : wordInvariant db) :
    (∀ new_id payload db',
        create_chapter db new_id payload = .ok db' → wordInvariant db')
    ∧ (∀ chapter_id payload db',
        update_chapter db chapter_id payload = .ok db' → wordInvariant db')
    ∧ (∀ chapter_id db',
        delete_chapter db chapter_id = .ok db' → wordInvariant db')
    ∧ (∀ chapter_id ai_content,
        (generate_chapter_content db chapter_id (.ok ai_content)).status
          = none →
        wordInvariant
          (generate_chapter_content db chapter_id (.ok ai_content)).db)
    ∧ (∀ chapter_id payload chapter newContent project db',
        db.chapters.find? (fun c => c.id == chapter_id) = some chapter →
        payload.content = some (some newContent) → newContent ≠ "" →
        db.projects.find? (fun p => p.id == chapter.project_id) =
          some project →
        update_chapter db chapter_id payload = .ok db' →
        db'.projects = updateProjectRow db.projects project.id
          { project with
            current_words := project.current_words
              - (chapter.word_count : Int) + (pyLen newContent : Int) })
    ∧ (∀ chapter_id chapter project db',
        db.chapters.find? (fun c => c.id == chapter_id) = some chapter →
        db.projects.find? (fun p => p.id == chapter.project_id) =
          some project →
        delete_chapter db chapter_id = .ok db' →
        db'.projects = updateProjectRow db.projects project.id
          { project with
            current_words :=
              max 0 (project.current_words - (chapter.word_count : Int)) }) := by
  refine ⟨?_, ?_, ?_, ?_, ?_, ?_⟩
  · intro new_id payload db' hok
    exact create_preserves_wordInvariant db new_id payload db' hinv hok
  · intro chapter_id payload db' hok
    exact update_preserves_wordInvariant db chapter_id payload db' hcn hinv
      hok
  · intro chapter_id db' hok
    exact delete_preserves_wordInvariant db chapter_id db' hcn hinv hok
  · intro chapter_id ai_content hsucc
    exact generate_preserves_wordInvariant db chapter_id ai_content hcn hinv
      hsucc
  · intro chapter_id payload chapter newContent project db' hch hpay hne
      hproj hok
    have hc := applyChapterUpdate_content payload chapter (some newContent)
      hpay
    have hsome : payload.content.isSome = true := by rw [hpay]; rfl
    have hcond : pyTruthy (some newContent) = true := by
      simpa [pyTruthy] using hne
    simp only [update_chapter, hch, hsome, hc, hcond, Bool.and_self, if_true,
      Option.getD_some, hproj] at hok
    injection hok with hok
    subst hok
    rfl
  · intro chapter_id chapter project db' hch hproj hok
    simp only [delete_chapter, hch, hproj] at hok
    injection hok with hok
    subst hok
    rfl

/-- Witness for C4 at the sample store (whose cached totals satisfy the
invariant): deleting the first chapter keeps the invariant. -/
theorem c4_project_word_total_witness :
    wordInvariant sampleDb
    ∧ (match delete_chapter sampleDb "c1" with
       | .ok db' => wordInvariant db'
       | .error _ => False) :=
  ⟨by unfold wordInvariant; decide,
   (c4_project_word_total sampleDb (by decide)
     (by unfold wordInvariant; decide)).2.2.1 "c1" _ rfl⟩

/-- Net effect of the renumbering loop on one outline row: a row whose id
was collected with an old position moves to that position minus one. -/
def outlineShift (pairs : List (String × Nat)) (o : Outline) : Outline :=
  match pairs.lookup o.id with
  | some old_order => { o with order_index := old_order - 1 }
  | none => o

/-- Empty collection shifts nothing. -/
theorem outlineShift_nil (o : Outline) : outlineShift [] o = o := rfl

/-- Head unfolding of `outlineShift`. -/
theorem outlineShift_cons (a : String) (b : Nat)
    (rest : List (String × Nat)) (o : Outline) :
    outlineShift ((a, b) :: rest) o =
      if o.id == a then { o with order_index := b - 1 }
      else outlineShift rest o := by
  unfold outlineShift
  rw [List.lookup_cons]
  cases hoa : (o.id == a) <;> simp [hoa]

/-- `lookup` misses when no pair carries the key. -/
theorem lookup_eq_none_of_no_key {β : Type} (a : String)
    (l : List (String × β)) (h : ∀ p ∈ l, p.1 ≠ a) : l.lookup a = none := by
  induction l with
  | nil => rfl
  | cons p rest ih =>
    obtain ⟨k, v⟩ := p
    have hk : (a == k) = false := by
      rw [beq_eq_false_iff_ne]
      intro hak
      exact h (k, v) (List.mem_cons_self _ _) hak.symm
    rw [List.lookup_cons, hk]
    exact ih (fun q hq => h q (List.mem_cons_of_mem _ hq))

/-- Mapping with a guarded rewrite whose guard never fires is the identity. -/
theorem map_if_no_match {α : Type} (cs : List α) (q : α → Bool) (f : α → α)
    (h : ∀ c ∈ cs, q c = false) :
    cs.map (fun c => if q c then f c else c) = cs := by
  rw [@List.map_congr_left _ cs _ (fun c => if q c then f c else c) id
    (fun c hc => by simp [h c hc]), List.map_id]

/-- The outline component of the renumbering loop: with distinct collected
ids, each outline row is shifted independently according to its collected
old position. -/
theorem renumberLoop_fst (pid : String) (pairs : List (String × Nat))
    (os : List Outline) (cs : List Chapter)
    (hkeys : (pairs.map Prod.fst).Nodup) :
    (renumberLoop pid pairs os cs).1 = os.map (outlineShift pairs) := by
  induction pairs generalizing os cs with
  | nil =>
    show os = os.map (outlineShift [])
    rw [@List.map_congr_left _ os _ (outlineShift []) id
      (fun o _ => outlineShift_nil o), List.map_id]
  | cons p rest ih =>
    obtain ⟨a, b⟩ := p
    rw [List.map_cons, List.nodup_cons] at hkeys
    show (renumberLoop pid rest
      (os.map fun o =>
        if o.id == a then { o with order_index := b - 1 } else o)
      (renumberChapter pid b cs)).1 = _
    rw [ih _ _ hkeys.2, List.map_map]
    apply List.map_congr_left
    intro o _
    show outlineShift rest
        (if o.id == a then { o with order_index := b - 1 } else o) =
      outlineShift ((a, b) :: rest) o
    rw [outlineShift_cons]
    by_cases ha : (o.id == a) = true
    · rw [if_pos ha, if_pos ha]
      have hoa : o.id = a := by simpa using ha
      unfold outlineShift
      rw [show ({ o with order_index := b - 1 } : Outline).id = o.id from rfl]
      rw [lookup_eq_none_of_no_key o.id rest (fun q hq hqa => hkeys.1
        (List.mem_map.2 ⟨q, hq, by rw [hqa, hoa]⟩))]
    · rw [if_neg ha, if_neg ha]

/-- Matching head unfolding of one chapter-renumbering pass. -/
theorem renumberChapter_cons_pos (pid : String) (old_order : Nat)
    (c : Chapter) (rest : List Chapter)
    (h : (c.project_id == pid && c.chapter_number == old_order) = true) :
    renumberChapter pid old_order (c :: rest) =
      { c with chapter_number := old_order - 1 } :: rest := by
  simp [renumberChapter, h]

/-- Non-matching head unfolding of one chapter-renumbering pass. -/
theorem renumberChapter_cons_neg (pid : String) (old_order : Nat)
    (c : Chapter) (rest : List Chapter)
    (h : (c.project_id == pid && c.chapter_number == old_order) = false) :
    renumberChapter pid old_order (c :: rest) =
      c :: renumberChapter pid old_order rest := by
  simp [renumberChapter, h]

/-- One pass of the chapter renumbering: when at most one chapter carries
the old position, the first-match update is a pointwise map. -/
theorem renumberChapter_eq_map (pid : String) (old_order : Nat)
    (cs : List Chapter)
    (hcount : (cs.filter (fun c =>
      c.project_id == pid && c.chapter_number == old_order)).length ≤ 1) :
    renumberChapter pid old_order cs =
      cs.map (fun c =>
        if c.project_id == pid && c.chapter_number == old_order then
          { c with chapter_number := old_order - 1 }
        else c) := by
  induction cs with
  | nil => rfl
  | cons a rest ih =>
    by_cases ha : (a.project_id == pid && a.chapter_number == old_order)
      = true
    · have h1 : List.filter (fun c =>
          c.project_id == pid && c.chapter_number == old_order) (a :: rest) =
          a :: List.filter (fun c =>
            c.project_id == pid && c.chapter_number == old_order) rest :=
        List.filter_cons_of_pos ha
      rw [h1, List.length_cons] at hcount
      have hrest : (rest.filter (fun c =>
          c.project_id == pid && c.chapter_number == old_order)) = [] := by
        have := Nat.le_of_succ_le_succ hcount
        exact List.eq_nil_of_length_eq_zero (Nat.le_zero.1 this)
      have hnomatch : ∀ c ∈ rest,
          (c.project_id == pid && c.chapter_number == old_order) = false := by
        intro c hc
        by_contra hcc
        have : c ∈ (rest.filter (fun c =>
            c.project_id == pid && c.chapter_number == old_order)) :=
          List.mem_filter.2 ⟨hc, by simpa using hcc⟩
        rw [hrest] at this
        exact absurd this (List.not_mem_nil c)
      rw [renumberChapter_cons_pos pid old_order a rest ha]
      rw [List.map_cons, if_pos ha, map_if_no_match rest _ _ hnomatch]
    · have h1 : List.filter (fun c =>
          c.project_id == pid && c.chapter_number == old_order) (a :: rest) =
          List.filter (fun c =>
            c.project_id == pid && c.chapter_number == old_order) rest :=
        List.filter_cons_of_neg (by simpa using ha)
      rw [h1] at hcount
      rw [renumberChapter_cons_neg pid old_order a rest (by simpa using ha)]
      rw [List.map_cons, if_neg ha, ih hcount]

/-- The chapter component of the renumbering loop: when the collected old
positions are strictly ascending (the storage order of sequentially created
outlines) and each position is carried by at most one chapter of the
project, every chapter sitting at a collected position moves down one and
nothing else changes. -/
theorem renumberLoop_snd (pid : String) (pairs : List (String × Nat))
    (os : List Outline) (cs : List Chapter)
    (hasc : List.Pairwise (· < ·) (pairs.map Prod.snd))
    (hcount : ∀ old ∈ pairs.map Prod.snd,
      (cs.filter (fun c =>
        c.project_id == pid && c.chapter_number == old)).length ≤ 1) :
    (renumberLoop pid pairs os cs).2 =
      cs.map (fun c =>
        if c.project_id == pid &&
            (pairs.map Prod.snd).contains c.chapter_number then
          { c with chapter_number := c.chapter_number - 1 }
        else c) := by
  induction pairs generalizing os cs with
  | nil =>
    show cs = _
    rw [map_if_no_match cs _ _ (fun c _ => by simp)]
  | cons p rest ih =>
    obtain ⟨a, b⟩ := p
    have hb : ∀ x ∈ rest.map Prod.snd, b < x :=
      (List.pairwise_cons.1 hasc).1
    have hrest : List.Pairwise (· < ·) (rest.map Prod.snd) :=
      (List.pairwise_cons.1 hasc).2
    have hcb := hcount b (by simp)
    show (renumberLoop pid rest _ (renumberChapter pid b cs)).2 = _
    rw [renumberChapter_eq_map pid b cs hcb]
    have hcount' : ∀ old ∈ rest.map Prod.snd,
        (((cs.map (fun c =>
          if c.project_id == pid && c.chapter_number == b then
            { c with chapter_number := b - 1 }
          else c)).filter (fun c =>
            c.project_id == pid && c.chapter_number == old)).length ≤ 1) := by
      intro old hold
      rw [List.filter_map, List.length_map]
      have h2 : cs.filter ((fun c =>
          c.project_id == pid && c.chapter_number == old) ∘ (fun c =>
            if c.project_id == pid && c.chapter_number == b then
              { c with chapter_number := b - 1 }
            else c)) =
          cs.filter (fun c =>
            c.project_id == pid && c.chapter_number == old) := by
        apply List.filter_congr
        intro c _
        show (fun c => c.project_id == pid && c.chapter_number == old)
            (if c.project_id == pid && c.chapter_number == b then
              { c with chapter_number := b - 1 }
            else c) = _
        by_cases hm : (c.project_id == pid && c.chapter_number == b) = true
        · rw [if_pos hm]
          have hand : (c.project_id == pid) = true ∧
              (c.chapter_number == b) = true := by
            have h0 := hm
            rw [Bool.and_eq_true] at h0
            exact h0
          have hnum : c.chapter_number = b := by simpa using hand.2
          have hlt := hb old hold
          show (c.project_id == pid && (b - 1 == old)) = _
          have h1 : ((b - 1 : Nat) == old) = false := by
            rw [beq_eq_false_iff_ne]
            omega
          have h2 : ((c.chapter_number == old)) = false := by
            rw [beq_eq_false_iff_ne, hnum]
            omega
          rw [h1, h2, Bool.and_false]
        · rw [if_neg hm]
      rw [h2]
      exact hcount old (by simp [hold])
    rw [ih _ _ hrest hcount', List.map_map]
    apply List.map_congr_left
    intro c _
    show (fun c =>
        if c.project_id == pid &&
            (rest.map Prod.snd).contains c.chapter_number then
          { c with chapter_number := c.chapter_number - 1 }
        else c)
      (if c.project_id == pid && c.chapter_number == b then
        { c with chapter_number := b - 1 }
      else c) = _
    by_cases hm : (c.project_id == pid && c.chapter_number == b) = true
    · rw [if_pos hm]
      have hand : (c.project_id == pid) = true ∧
          (c.chapter_number == b) = true := by
        have h0 := hm
        rw [Bool.and_eq_true] at h0
        exact h0
      have hpidc : (c.project_id == pid) = true := hand.1
      have hnum : c.chapter_number = b := by simpa using hand.2
      have hnc : ¬ (b - 1) ∈ rest.map Prod.snd := by
        intro hmem
        have := hb _ hmem
        omega
      have hcf : ((rest.map Prod.snd).contains (b - 1)) = false := by
        simpa using hnc
      simp only [hpidc, hnum, List.map_cons, List.contains_cons, hcf,
        Bool.true_and, beq_self_eq_true, Bool.true_or, Bool.and_false,
        Bool.false_eq_true, if_false, eq_self_iff_true, if_true]
    · rw [if_neg hm]
      have hmf : (c.project_id == pid && c.chapter_number == b) = false := by
        simpa using hm
      by_cases hpidc : (c.project_id == pid) = true
      · have hnumb : (c.chapter_number == b) = false := by
          rw [hpidc, Bool.true_and] at hmf
          exact hmf
        simp only [List.map_cons, List.contains_cons, hnumb, Bool.false_or]
      · have hf : (c.project_id == pid) = false := by simpa using hpidc
        simp only [hf, Bool.false_and, Bool.false_eq_true, if_false]

/-- A guarded delete followed by a guarded pointwise rewrite is one
`filterMap` pass over the original table. -/
theorem filter_then_map_eq_filterMap {α : Type} (l : List α)
    (r s : α → Bool) (f : α → α) :
    (l.filter (fun x => !(r x))).map (fun x => if s x then f x else x) =
      l.filterMap (fun x =>
        if r x then none else if s x then some (f x) else some x) := by
  induction l with
  | nil => rfl
  | cons a rest ih =>
    by_cases hr : r a = true
    · have h1 : (a :: rest).filter (fun x => !(r x)) =
          rest.filter (fun x => !(r x)) :=
        List.filter_cons_of_neg (by simp [hr])
      rw [h1, ih, List.filterMap_cons, if_pos hr]
    · have hrf : r a = false := by simpa using hr
      have h1 : (a :: rest).filter (fun x => !(r x)) =
          a :: rest.filter (fun x => !(r x)) :=
        List.filter_cons_of_pos (by simp [hrf])
      rw [h1, List.map_cons, List.filterMap_cons, if_neg hr]
      by_cases hs : s a = true
      · rw [if_pos hs, if_pos hs, ih]
      · rw [if_neg hs, if_neg hs, ih]

/-- Looking up an outline id among the (id, position) pairs collected from a
filtered table with unique ids finds exactly its own position, when the
filter admitted it. -/
theorem lookup_keyed_pairs (os : List Outline) (P : Outline → Bool)
    (o : Outline) (ho : o ∈ os)
    (hn : (os.map (fun x => x.id)).Nodup) :
    ((os.filter P).map (fun x => (x.id, x.order_index))).lookup o.id =
      if P o then some o.order_index else none := by
  induction os with
  | nil => exact absurd ho (List.not_mem_nil o)
  | cons a rest ih =>
    rw [List.map_cons, List.nodup_cons] at hn
    rcases List.mem_cons.1 ho with rfl | hor
    · by_cases hp : P o = true
      · rw [List.filter_cons_of_pos hp, List.map_cons, List.lookup_cons,
          beq_self_eq_true, if_pos hp]
      · have hpf : P o = false := by simpa using hp
        rw [List.filter_cons_of_neg (by simp [hpf]), if_neg (by simp [hpf])]
        apply lookup_eq_none_of_no_key
        intro q hq hqo
        obtain ⟨x, hx, hxq⟩ := List.mem_map.1 hq
        refine hn.1 ?_
        rw [show o.id = x.id from by rw [← hqo, ← hxq]]
        exact List.mem_map_of_mem (fun y => y.id) (List.mem_of_mem_filter hx)
    · have hoa : (o.id == a.id) = false := by
        rw [beq_eq_false_iff_ne]
        intro h
        exact hn.1 (h ▸ List.mem_map_of_mem (fun y => y.id) hor)
      by_cases hp : P a = true
      · rw [List.filter_cons_of_pos hp, List.map_cons, List.lookup_cons, hoa]
        exact ih hor hn.2
      · rw [List.filter_cons_of_neg (by simpa using hp)]
        exact ih hor hn.2

/-- Filtering after a `filterMap` that never changes the filtered attribute
commutes with filtering first. -/
theorem filter_filterMap_comm {α : Type} (l : List α) (F : α → Option α)
    (q : α → Bool) (h : ∀ o o', F o = some o' → q o' = q o) :
    (l.filterMap F).filter q = (l.filter q).filterMap F := by
  induction l with
  | nil => rfl
  | cons a rest ih =>
    cases hF : F a with
    | none =>
      rw [List.filterMap_cons_none hF]
      by_cases hq : q a = true
      · rw [List.filter_cons_of_pos hq, List.filterMap_cons_none hF, ih]
      · rw [List.filter_cons_of_neg hq, ih]
    | some a' =>
      rw [List.filterMap_cons_some hF]
      have hqq := h a a' hF
      by_cases hq : q a = true
      · rw [List.filter_cons_of_pos (by rw [hqq]; exact hq),
          List.filter_cons_of_pos hq, List.filterMap_cons_some hF, ih]
      · rw [List.filter_cons_of_neg (by rw [hqq]; exact hq),
          List.filter_cons_of_neg hq, ih]

/-- Removing position `i` from the dense range `1..N` and pulling every
higher position down one yields the dense range `1..N-1`. -/
theorem filterMap_shift_range' (i : Nat) (hi : 1 ≤ i) :
    ∀ N, i ≤ N →
      (List.range' 1 N).filterMap (fun n =>
        if n == i then none
        else if i < n then some (n - 1) else some n) =
        List.range' 1 (N - 1) := by
  intro N
  induction N with
  | zero => intro h; omega
  | succ N ih =>
    intro hile
    rw [List.range'_concat 1 N, List.filterMap_append]
    by_cases hiN : i ≤ N
    · have hc1 : ((1 + 1 * N : Nat) == i) = false :=
        beq_eq_false_iff_ne.2 (by omega)
      have hc2 : i < 1 + 1 * N := by omega
      rw [ih hiN]
      have hsing : List.filterMap (fun n =>
          if n == i then none
          else if i < n then some (n - 1) else some n) [1 + 1 * N] =
          [1 + 1 * N - 1] := by
        simp only [List.filterMap_cons, List.filterMap_nil, hc1,
          Bool.false_eq_true, if_false, if_pos hc2]
      rw [hsing]
      have h2 : List.range' 1 (N + 1 - 1) =
          List.range' 1 (N - 1) ++ [1 + 1 * (N - 1)] := by
        rw [show N + 1 - 1 = (N - 1) + 1 from by omega]
        exact List.range'_concat 1 (N - 1)
      rw [h2, show 1 + 1 * N - 1 = 1 + 1 * (N - 1) from by omega]
    · have hcong : ∀ x ∈ List.range' 1 N, (fun n =>
          if n == i then none
          else if i < n then some (n - 1) else some n) x = some x := by
        intro x hx
        have hxN := (List.mem_range'_1.1 hx).2
        have hc1 : (x == i) = false := beq_eq_false_iff_ne.2 (by omega)
        show (if x == i then none
          else if i < x then some (x - 1) else some x) = some x
        rw [hc1]
        simp only [Bool.false_eq_true, if_false]
        rw [if_neg (by omega)]
      rw [List.filterMap_congr hcong, List.filterMap_some]
      have hc1 : ((1 + 1 * N : Nat) == i) = true := by
        simp only [beq_iff_eq]
        omega
      have hsing : List.filterMap (fun n =>
          if n == i then none
          else if i < n then some (n - 1) else some n) [1 + 1 * N] =
          ([] : List Nat) := by
        simp only [List.filterMap_cons, List.filterMap_nil, hc1, if_true]
      rw [hsing, List.append_nil, show N + 1 - 1 = N from by omega]

/-- Characterisation of `delete_outline`: the outline row is removed, the
chapter at the deleted position is removed, and every outline and chapter
of the project at a higher position is shifted down by one, all other rows
and fields untouched.  Hypotheses: unique outline ids, project outlines
stored in ascending position order (insertion order), at most one chapter
per (project, position), and every chapter position above the deleted one
backed by an outline of the project. -/
theorem delete_outline_filterMap (db : Db) (outline_id : String)
    (ol : Outline)
    (hfind : db.outlines.find? (fun o => o.id == outline_id) = some ol)
    (huids : (db.outlines.map (fun o => o.id)).Nodup)
    (hsorted : db.outlines.Pairwise (fun o1 o2 =>
      o1.project_id = ol.project_id → o2.project_id = ol.project_id →
        o1.order_index < o2.order_index))
    (hcount : ∀ n : Nat, (db.chapters.filter (fun c =>
      c.project_id == ol.project_id && c.chapter_number == n)).length ≤ 1)
    (hcov : ∀ c ∈ db.chapters, c.project_id = ol.project_id →
      ol.order_index < c.chapter_number →
      ∃ o ∈ db.outlines, o.project_id = ol.project_id ∧
        o.order_index = c.chapter_number) :
    delete_outline db outline_id = .ok { db with
      outlines := db.outlines.filterMap (fun o =>
        if o.id == outline_id then none
        else if o.project_id == ol.project_id &&
            ol.order_index < o.order_index then
          some { o with order_index := o.order_index - 1 }
        else some o),
      chapters := db.chapters.filterMap (fun c =>
        if c.project_id == ol.project_id &&
            c.chapter_number == ol.order_index then none
        else if c.project_id == ol.project_id &&
            ol.order_index < c.chapter_number then
          some { c with chapter_number := c.chapter_number - 1 }
        else some c) } := by
  have holid : ol.id = outline_id := by simpa using List.find?_some hfind
  have holmem : ol ∈ db.outlines := List.mem_of_find?_eq_some hfind
  simp only [delete_outline, hfind]
  set outlines1 : List Outline :=
    db.outlines.filter (fun o => !(o.id == outline_id)) with hO1
  set chapters1 : List Chapter :=
    db.chapters.filter (fun c =>
      !(c.project_id == ol.project_id &&
        c.chapter_number == ol.order_index)) with hC1
  set subseq : List Outline :=
    outlines1.filter (fun o =>
      o.project_id == ol.project_id &&
        ol.order_index < o.order_index) with hS
  set pairs : List (String × Nat) :=
    subseq.map (fun o => (o.id, o.order_index)) with hP
  have hsub1 : outlines1.Sublist db.outlines := by
    rw [hO1]
    exact List.filter_sublist _
  have hsubs : subseq.Sublist db.outlines := by
    rw [hS]
    exact (List.filter_sublist _).trans hsub1
  have hids1 : (outlines1.map (fun o => o.id)).Nodup :=
    List.Nodup.sublist (hsub1.map _) huids
  have hkeys : ((pairs.map Prod.fst)).Nodup := by
    rw [hP, List.map_map]
    exact List.Nodup.sublist (hsubs.map _) huids
  have hasc : List.Pairwise (· < ·) (pairs.map Prod.snd) := by
    rw [hP, List.map_map]
    have h1 := List.Pairwise.sublist hsubs hsorted
    have h2 : List.Pairwise (fun o1 o2 : Outline =>
        o1.order_index < o2.order_index) subseq := by
      refine List.Pairwise.imp_of_mem ?_ h1
      intro o1 o2 h1m h2m hR
      rw [hS] at h1m h2m
      have hp1 : o1.project_id = ol.project_id := by
        have h3 := (List.mem_filter.1 h1m).2
        rw [Bool.and_eq_true] at h3
        simpa using h3.1
      have hp2 : o2.project_id = ol.project_id := by
        have h3 := (List.mem_filter.1 h2m).2
        rw [Bool.and_eq_true] at h3
        simpa using h3.1
      exact hR hp1 hp2
    exact List.pairwise_map.2 h2
  have hcnt : ∀ old ∈ pairs.map Prod.snd,
      ((chapters1.filter (fun c =>
        c.project_id == ol.project_id &&
          c.chapter_number == old)).length ≤ 1) := by
    intro old _
    have hle : (chapters1.filter (fun c =>
        c.project_id == ol.project_id &&
          c.chapter_number == old)).Sublist
        (db.chapters.filter (fun c =>
          c.project_id == ol.project_id && c.chapter_number == old)) := by
      rw [hC1]
      exact List.Sublist.filter _ (List.filter_sublist _)
    exact le_trans hle.length_le (hcount old)
  rw [renumberLoop_fst ol.project_id pairs outlines1 chapters1 hkeys,
    renumberLoop_snd ol.project_id pairs outlines1 chapters1 hasc hcnt]
  have houts : outlines1.map (outlineShift pairs) =
      outlines1.map (fun o =>
        if o.project_id == ol.project_id &&
            ol.order_index < o.order_index then
          { o with order_index := o.order_index - 1 }
        else o) := by
    apply List.map_congr_left
    intro o ho
    have hl := lookup_keyed_pairs outlines1 (fun o =>
      o.project_id == ol.project_id &&
        ol.order_index < o.order_index) o ho hids1
    unfold outlineShift
    rw [hP, hS, hl]
    by_cases hp : (o.project_id == ol.project_id &&
        ol.order_index < o.order_index) = true
    · rw [if_pos hp, if_pos hp]
    · rw [if_neg hp, if_neg hp]
  have hchs : chapters1.map (fun c =>
      if c.project_id == ol.project_id &&
          (pairs.map Prod.snd).contains c.chapter_number then
        { c with chapter_number := c.chapter_number - 1 }
      else c) =
      chapters1.map (fun c =>
        if c.project_id == ol.project_id &&
            ol.order_index < c.chapter_number then
          { c with chapter_number := c.chapter_number - 1 }
        else c) := by
    apply List.map_congr_left
    intro c hc
    have hcdb : c ∈ db.chapters := by
      rw [hC1] at hc
      exact List.mem_of_mem_filter hc
    by_cases hpidc : (c.project_id == ol.project_id) = true
    · have hcpid : c.project_id = ol.project_id := by simpa using hpidc
      have hiff : ((pairs.map Prod.snd).contains c.chapter_number) =
          decide (ol.order_index < c.chapter_number) := by
        by_cases hlt : ol.order_index < c.chapter_number
        · obtain ⟨o, homem, hopid, hoord⟩ := hcov c hcdb hcpid hlt
          have hoid : (o.id == outline_id) = false := by
            rw [beq_eq_false_iff_ne]
            intro hoeq
            have hool : o = ol :=
              List.inj_on_of_nodup_map huids homem holmem
                (by rw [hoeq, holid])
            rw [hool] at hoord
            omega
          have ho1 : o ∈ outlines1 := by
            rw [hO1]
            exact List.mem_filter.2 ⟨homem, by simp [hoid]⟩
          have hos : o ∈ subseq := by
            rw [hS]
            refine List.mem_filter.2 ⟨ho1, ?_⟩
            rw [hoord]
            simp [hopid, hlt]
          have hmemsnd : c.chapter_number ∈ pairs.map Prod.snd := by
            rw [hP, List.map_map]
            exact List.mem_map.2 ⟨o, hos, hoord⟩
          rw [decide_eq_true hlt]
          simpa using hmemsnd
        · have hnm : ¬ c.chapter_number ∈ pairs.map Prod.snd := by
            intro hmem
            rw [hP, List.map_map] at hmem
            obtain ⟨o, hos, hoeq⟩ := List.mem_map.1 hmem
            rw [hS] at hos
            have hPo := (List.mem_filter.1 hos).2
            rw [Bool.and_eq_true] at hPo
            have hlt2 : ol.order_index < o.order_index := by
              simpa using hPo.2
            have : o.order_index = c.chapter_number := hoeq
            omega
          rw [decide_eq_false hlt]
          simpa using hnm
      rw [hiff]
    · have hf : (c.project_id == ol.project_id) = false := by
        simpa using hpidc
      simp only [hf, Bool.false_and]
  rw [houts, hchs, hO1, hC1,
    filter_then_map_eq_filterMap db.outlines _ _ _,
    filter_then_map_eq_filterMap db.chapters _ _ _]

/-- C5: deleting the outline at position `i` also deletes the chapter at
position `i` of the same project, and decrements by one the position of
every outline and chapter of the project whose position exceeds `i`,
leaving every other row and every other field (titles, contents) unchanged;
consequently, if the project's outline positions formed the dense 1-based
range `1..N`, afterwards they form the dense 1-based range `1..N-1`.
Hypotheses: unique outline ids, project outlines stored in ascending
position order (insertion order), at most one chapter per
(project, position), and every chapter position above `i` backed by an
outline of the project. -/
theorem c5_delete_outline_renumbers (db : Db) (outline_id : String)
    (ol : Outline)
    (hfind : db.outlines.find? (fun o => o.id == outline_id) = some ol)
    (huids : (db.outlines.map (fun o => o.id)).Nodup)
    (hsorted : db.outlines.Pairwise (fun o1 o2 =>
      o1.project_id = ol.project_id → o2.project_id = ol.project_id →
        o1.order_index < o2.order_index))
    (hcount : ∀ n : Nat, (db.chapters.filter (fun c =>
      c.project_id == ol.project_id && c.chapter_number == n)).length ≤ 1)
    (hcov : ∀ c ∈ db.chapters, c.project_id = ol.project_id →
      ol.order_index < c.chapter_number →
      ∃ o ∈ db.outlines, o.project_id = ol.project_id ∧
        o.order_index = c.chapter_number) :
    delete_outline db outline_id = .ok { db with
      outlines := db.outlines.filterMap (fun o =>
        if o.id == outline_id then none
        else if o.project_id == ol.project_id &&
            ol.order_index < o.order_index then
          some { o with order_index := o.order_index - 1 }
        else some o),
      chapters := db.chapters.filterMap (fun c =>
        if c.project_id == ol.project_id &&
            c.chapter_number == ol.order_index then none
        else if c.project_id == ol.project_id &&
            ol.order_index < c.chapter_number then
          some { c with chapter_number := c.chapter_number - 1 }
        else some c) } ∧
    ∀ N : Nat,
      (db.outlines.filter (fun o =>
        o.project_id == ol.project_id)).map (fun o => o.order_index) =
        List.range' 1 N →
      ((db.outlines.filterMap (fun o =>
        if o.id == outline_id then none
        else if o.project_id == ol.project_id &&
            ol.order_index < o.order_index then
          some { o with order_index := o.order_index - 1 }
        else some o)).filter (fun o =>
          o.project_id == ol.project_id)).map (fun o => o.order_index) =
        List.range' 1 (N - 1) := by
  refine ⟨delete_outline_filterMap db outline_id ol hfind huids hsorted
    hcount hcov, ?_⟩
  intro N hdense
  have holid : ol.id = outline_id := by simpa using List.find?_some hfind
  have holmem : ol ∈ db.outlines := List.mem_of_find?_eq_some hfind
  set L : List Outline :=
    db.outlines.filter (fun o => o.project_id == ol.project_id) with hL
  have holL : ol ∈ L := by
    rw [hL]
    exact List.mem_filter.2 ⟨holmem, by simp⟩
  have hFpres : ∀ o o' : Outline,
      (if o.id == outline_id then none
       else if o.project_id == ol.project_id &&
           ol.order_index < o.order_index then
         some { o with order_index := o.order_index - 1 }
       else some o) = some o' →
      (o'.project_id == ol.project_id) = (o.project_id == ol.project_id) := by
    intro o o' h
    by_cases h1 : (o.id == outline_id) = true
    · rw [if_pos h1] at h
      exact absurd h (by simp)
    · rw [if_neg h1] at h
      by_cases h2 : (o.project_id == ol.project_id &&
          ol.order_index < o.order_index) = true
      · rw [if_pos h2] at h
        cases h
        rfl
      · rw [if_neg h2] at h
        cases h
        rfl
  have hNodup : (L.map (fun o => o.order_index)).Nodup := by
    rw [hdense]
    exact List.nodup_range' 1 N
  have hcong : ∀ o ∈ L,
      ((if o.id == outline_id then none
        else if o.project_id == ol.project_id &&
            ol.order_index < o.order_index then
          some { o with order_index := o.order_index - 1 }
        else some o).map (fun q => q.order_index)) =
      (if o.order_index == ol.order_index then none
       else if ol.order_index < o.order_index then
         some (o.order_index - 1)
       else some o.order_index) := by
    intro o hoL
    have hoF : o ∈ db.outlines.filter
        (fun o => o.project_id == ol.project_id) := by
      rw [← hL]
      exact hoL
    have hodb : o ∈ db.outlines := List.mem_of_mem_filter hoF
    have hop : (o.project_id == ol.project_id) = true :=
      (List.mem_filter.1 hoF).2
    by_cases hid : (o.id == outline_id) = true
    · have hoeq : o = ol := List.inj_on_of_nodup_map huids hodb holmem
        (by rw [show o.id = outline_id from by simpa using hid, holid])
      rw [if_pos hid,
        if_pos (show (o.order_index == ol.order_index) = true from
          by rw [hoeq]; simp)]
      rfl
    · have hne : o ≠ ol := by
        intro h
        rw [h, holid] at hid
        exact hid (by simp)
      have hnum : o.order_index ≠ ol.order_index := fun h =>
        hne (List.inj_on_of_nodup_map hNodup hoL holL h)
      rw [if_neg hid,
        if_neg (show ¬ (o.order_index == ol.order_index) = true from
          by simpa using hnum)]
      by_cases hlt : ol.order_index < o.order_index
      · rw [if_pos (show (o.project_id == ol.project_id &&
            ol.order_index < o.order_index) = true from
            by simp [hop, hlt]),
          if_pos hlt]
        rfl
      · rw [if_neg (show ¬ (o.project_id == ol.project_id &&
            ol.order_index < o.order_index) = true from by simp [hlt]),
          if_neg hlt]
        rfl
  have hA : ((db.outlines.filterMap (fun o =>
      if o.id == outline_id then none
      else if o.project_id == ol.project_id &&
          ol.order_index < o.order_index then
        some { o with order_index := o.order_index - 1 }
      else some o)).filter (fun o =>
        o.project_id == ol.project_id)).map (fun o => o.order_index) =
      L.filterMap (fun o =>
        (if o.id == outline_id then none
         else if o.project_id == ol.project_id &&
             ol.order_index < o.order_index then
           some { o with order_index := o.order_index - 1 }
         else some o).map (fun q => q.order_index)) := by
    rw [filter_filterMap_comm db.outlines _ _ hFpres, ← hL,
      List.map_filterMap]
  have hB : L.filterMap (fun o =>
      (if o.id == outline_id then none
       else if o.project_id == ol.project_id &&
           ol.order_index < o.order_index then
         some { o with order_index := o.order_index - 1 }
       else some o).map (fun q => q.order_index)) =
      L.filterMap (fun o =>
        if o.order_index == ol.order_index then none
        else if ol.order_index < o.order_index then
          some (o.order_index - 1)
        else some o.order_index) :=
    List.filterMap_congr hcong
  have hC : L.filterMap (fun o =>
      if o.order_index == ol.order_index then none
      else if ol.order_index < o.order_index then some (o.order_index - 1)
      else some o.order_index) =
      (L.map (fun o => o.order_index)).filterMap (fun n =>
        if n == ol.order_index then none
        else if ol.order_index < n then some (n - 1) else some n) := by
    rw [List.filterMap_map]
    rfl
  have hmemr : ol.order_index ∈ List.range' 1 N := by
    rw [← hdense]
    exact List.mem_map_of_mem (fun o => o.order_index) holL
  have hb := List.mem_range'_1.1 hmemr
  rw [hA, hB, hC, hdense]
  exact filterMap_shift_range' ol.order_index hb.1 N (by omega)

/-- Distinct chapter positions within a project give the per-position
uniqueness bound used by the renumbering proof. -/
theorem count_le_one_of_nodup_numbers (cs : List Chapter) (pid : String)
    (h : ((cs.filter (fun c => c.project_id == pid)).map
      (fun c => c.chapter_number)).Nodup) (n : Nat) :
    (cs.filter (fun c =>
      c.project_id == pid && c.chapter_number == n)).length ≤ 1 := by
  have h1 : cs.filter (fun c =>
      c.project_id == pid && c.chapter_number == n) =
      (cs.filter (fun c => c.project_id == pid)).filter
        (fun c => c.chapter_number == n) := by
    rw [List.filter_filter]
    apply List.filter_congr
    intro c _
    exact Bool.and_comm _ _
  rw [h1, ← List.countP_eq_length_filter]
  have h2 : List.countP (fun c => c.chapter_number == n)
      (cs.filter (fun c => c.project_id == pid)) =
      List.countP (fun m => m == n)
        ((cs.filter (fun c => c.project_id == pid)).map
          (fun c => c.chapter_number)) := by
    rw [List.countP_map]
    rfl
  rw [h2]
  exact List.nodup_iff_count_le_one.1 h n

/-- Four outlines of one project with their paired chapters, positions 1-4,
for the delete-and-renumber witness. -/
def c5Outlines : List Outline :=
  [{ id := "o1", project_id := "p5", title := "起", content := "开端",
     order_index := 1 },
   { id := "o2", project_id := "p5", title := "承", content := "发展",
     order_index := 2 },
   { id := "o3", project_id := "p5", title := "转", content := "转折",
     order_index := 3 },
   { id := "o4", project_id := "p5", title := "合", content := "结局",
     order_index := 4 }]

/-- The chapters paired with `c5Outlines`. -/
def c5Chapters : List Chapter :=
  [{ id := "k1", project_id := "p5", chapter_number := 1, title := "起",
     content := some "甲", summary := none, word_count := 1,
     status := "completed" },
   { id := "k2", project_id := "p5", chapter_number := 2, title := "承",
     content := some "乙", summary := none, word_count := 1,
     status := "completed" },
   { id := "k3", project_id := "p5", chapter_number := 3, title := "转",
     content := some "丙", summary := none, word_count := 1,
     status := "completed" },
   { id := "k4", project_id := "p5", chapter_number := 4, title := "合",
     content := some "丁", summary := none, word_count := 1,
     status := "completed" }]

/-- The second outline row of `c5Outlines`. -/
def c5o2 : Outline :=
  { id := "o2", project_id := "p5", title := "承", content := "发展",
    order_index := 2 }

/-- Store for the delete-and-renumber witness. -/
def c5Db : Db :=
  { projects := [], chapters := c5Chapters, outlines := c5Outlines,
    characters := [], history := [] }

/-- Witness for C5: deleting the outline at position 2 of the 4-outline
project removes the paired chapter and renumbers positions 3,4 to 2,3 in
both tables, leaving titles and contents unchanged; the project's outline
positions, dense `1..4` before, are dense `1..3` after. -/
theorem c5_delete_outline_renumbers_witness :
    (delete_outline c5Db "o2" = .ok { c5Db with
      outlines := c5Db.outlines.filterMap (fun o =>
        if o.id == "o2" then none
        else if o.project_id == c5o2.project_id &&
            c5o2.order_index < o.order_index then
          some { o with order_index := o.order_index - 1 }
        else some o),
      chapters := c5Db.chapters.filterMap (fun c =>
        if c.project_id == c5o2.project_id &&
            c.chapter_number == c5o2.order_index then none
        else if c.project_id == c5o2.project_id &&
            c5o2.order_index < c.chapter_number then
          some { c with chapter_number := c.chapter_number - 1 }
        else some c) }) ∧
    ((c5Db.outlines.filterMap (fun o =>
      if o.id == "o2" then none
      else if o.project_id == c5o2.project_id &&
          c5o2.order_index < o.order_index then
        some { o with order_index := o.order_index - 1 }
      else some o)).filter (fun o =>
        o.project_id == c5o2.project_id)).map (fun o => o.order_index) =
      List.range' 1 3 :=
  have h := c5_delete_outline_renumbers c5Db "o2" c5o2 (by decide)
    (by decide)
    (by decide)
    (fun n => count_le_one_of_nodup_numbers c5Db.chapters c5o2.project_id
      (by decide) n)
    (by decide)
  ⟨h.1, h.2 4 (by decide)⟩

end MuMu
